import Mathlib

/-!
Verification development for the x402-tron-v2 payment facilitator core
(`src/signer.ts` bundled as `dist/signer-B4A63VxW.d.ts`, and
`src/exact/facilitator/scheme.ts` bundled as `dist/exact/facilitator/index.mjs`).

The decode → verify → settle pipeline is embedded shallowly:

* `decodeTransaction` models the facilitator signer's `decodeTransaction`
  implementation, starting from the already JSON-parsed transaction object
  (`TronTx`).  The chain-client cryptographic capabilities (`sha256`,
  `ecRecover`, `address.fromHex`) and the transport calls
  (`sendRawTransaction`, `getTransactionInfo`) are oracle fields of
  `TronWebM`.
* `verify` and `settle` model `ExactTronScheme.verify` / `ExactTronScheme.settle`
  over an abstract `Signer` record mirroring `FacilitatorTronSigner`.
* `broadcastTransaction` and `confirmTransaction` model the corresponding
  signer implementations (the confirmation poll is attempt-indexed, the
  oracle receives the attempt number in place of real time).

JavaScript semantics that the source relies on are modelled explicitly:
string truthiness (`jsOrStr`, `jsOrOpt`, `optTruthy`), `String.prototype.includes`
(`jsIncludes`), `BigInt(string)` (`jsBigInt?`), and `Buffer.from(hex)`
(`hexToBytes`).  Thrown JavaScript exceptions are `Except.error` carrying the
message string.
-/

set_option maxRecDepth 100000

namespace X402Tron

/-- Decidable equality of `Except` results, used by the concrete evaluation
witnesses. -/
instance {ε α : Type} [DecidableEq ε] [DecidableEq α] : DecidableEq (Except ε α)
  | .error a, .error b =>
    if h : a = b then .isTrue (by rw [h]) else .isFalse (by intro hc; cases hc; exact h rfl)
  | .error _, .ok _ => .isFalse (fun hc => Except.noConfusion hc)
  | .ok _, .error _ => .isFalse (fun hc => Except.noConfusion hc)
  | .ok a, .ok b =>
    if h : a = b then .isTrue (by rw [h]) else .isFalse (by intro hc; cases hc; exact h rfl)

/-- Value of a hexadecimal digit character, or `none` when the character is
not a hex digit (models the `[0-9a-fA-F]` character class). -/
def hexDigitVal? (c : Char) : Option Nat :=
  if '0' ≤ c ∧ c ≤ '9' then some (c.toNat - '0'.toNat)
  else if 'a' ≤ c ∧ c ≤ 'f' then some (c.toNat - 'a'.toNat + 10)
  else if 'A' ≤ c ∧ c ≤ 'F' then some (c.toNat - 'A'.toNat + 10)
  else none

/-- Whether a character is a hexadecimal digit. -/
def isHexChar (c : Char) : Bool := (hexDigitVal? c).isSome

/-- Models the regular expression test for one-or-more hex characters,
anchored at both ends (the source pattern with a plus quantifier). -/
def testHexPlus (s : String) : Bool := !s.isEmpty && s.data.all isHexChar

/-- Models the 130-hex-character signature format test of `decodeTransaction`
(anchored, exactly 130 characters from the hex character class). -/
def testHex130 (s : String) : Bool := s.length = 130 && s.data.all isHexChar

/-- Models the all-zeros test applied to the address padding slot
(anchored, one-or-more `0` characters). -/
def testZerosPlus (s : String) : Bool := !s.isEmpty && s.data.all (fun c => c = '0')

/-- Consume hexadecimal character pairs into byte values, stopping at the
first pair that is not two hex digits — the truncating behaviour of Node's
`Buffer.from(string, "hex")`. -/
def hexPairsAux : List Char → List Nat
  | a :: b :: rest =>
    (match hexDigitVal? a, hexDigitVal? b with
     | some x, some y => (16 * x + y) :: hexPairsAux rest
     | _, _ => [])
  | _ => []

/-- Models `Buffer.from(s, "hex")` as a list of byte values. -/
def hexToBytes (s : String) : List Nat := hexPairsAux s.data

/-- Lowercase hex character for a nibble value. -/
def nibbleChar (n : Nat) : Char :=
  if n < 10 then Char.ofNat ('0'.toNat + n) else Char.ofNat ('a'.toNat + (n - 10))

/-- Two lowercase hex characters for one byte value. -/
def byteToHex (b : Nat) : List Char := [nibbleChar (b / 16 % 16), nibbleChar (b % 16)]

/-- Models `Buffer.prototype.toString("hex")` (lowercase). -/
def bytesToHex (bs : List Nat) : String := ⟨(bs.map byteToHex).flatten⟩

/-- Models `Buffer.from(s, "hex").toString("utf8")` for the byte-encoded error
messages returned by the Tron broadcast endpoint; those messages are ASCII
text, decoded here byte-by-byte. -/
def hexToUtf8 (s : String) : String := ⟨(hexToBytes s).map Char.ofNat⟩

/-- JavaScript `a || b` for strings: the empty string is falsy. -/
def jsOrStr (a b : String) : String := if a = "" then b else a

/-- JavaScript `a || b` where `a` may be `undefined` (modelled as `none`). -/
def jsOrOpt (a : Option String) (b : String) : String :=
  match a with
  | some s => jsOrStr s b
  | none => b

/-- JavaScript truthiness of a possibly-`undefined` string. -/
def optTruthy (a : Option String) : Bool :=
  match a with
  | some s => s ≠ ""
  | none => false

/-- JavaScript string printing of a possibly-`undefined` string (template
literals print `undefined` for a missing value). -/
def jsShowOpt (a : Option String) : String :=
  match a with
  | some s => s
  | none => "undefined"

/-- Models `String.prototype.includes`: substring occurrence test. -/
def jsIncludes (hay needle : String) : Bool := decide (needle.data <:+: hay.data)

/-- Models `String.prototype.toLowerCase` (character-wise, which is exact for
the hex and address strings it is applied to). -/
def toLowerCase (s : String) : String := ⟨s.data.map Char.toLower⟩

/-- Whitespace trimming as performed by `BigInt(string)` before parsing. -/
def jsTrim (s : String) : String :=
  ⟨((s.data.dropWhile Char.isWhitespace).reverse.dropWhile Char.isWhitespace).reverse⟩

/-- Accumulate digit values in the given base; fails on a non-digit. -/
def digitsValAux (base : Nat) : List Char → Nat → Option Nat
  | [], acc => some acc
  | c :: rest, acc =>
    match hexDigitVal? c with
    | some v => if v < base then digitsValAux base rest (base * acc + v) else none
    | none => none

/-- Value of a non-empty digit string in the given base. -/
def digitsVal? (base : Nat) (cs : List Char) : Option Nat :=
  if cs.isEmpty then none else digitsValAux base cs 0

/-- Models the JavaScript `BigInt(string)` conversion: whitespace is trimmed,
the empty string converts to `0`, an optional sign may precede decimal
digits, and the `0x`/`0o`/`0b` prefixes (unsigned) select another base.
Any other input throws, modelled as `none`. -/
def jsBigInt? (s : String) : Option Int :=
  let t := jsTrim s
  match t.data with
  | [] => some 0
  | '+' :: rest => (digitsVal? 10 rest).map (fun n => (n : Int))
  | '-' :: rest => (digitsVal? 10 rest).map (fun n => -(n : Int))
  | '0' :: 'x' :: rest => (digitsVal? 16 rest).map (fun n => (n : Int))
  | '0' :: 'X' :: rest => (digitsVal? 16 rest).map (fun n => (n : Int))
  | '0' :: 'o' :: rest => (digitsVal? 8 rest).map (fun n => (n : Int))
  | '0' :: 'O' :: rest => (digitsVal? 8 rest).map (fun n => (n : Int))
  | '0' :: 'b' :: rest => (digitsVal? 2 rest).map (fun n => (n : Int))
  | '0' :: 'B' :: rest => (digitsVal? 2 rest).map (fun n => (n : Int))
  | ds => (digitsVal? 10 ds).map (fun n => (n : Int))

/-- The message of the JavaScript `SyntaxError` thrown when `BigInt(string)`
cannot convert its argument. -/
def bigIntSyntaxError (s : String) : String := "Cannot convert " ++ s ++ " to a BigInt"

/-- Models JavaScript `new Date(ms).toISOString()`.  The exact calendar
formatting is irrelevant to every claim (the value only ever appears inside a
free-text diagnostic), so it is modelled as the decimal milliseconds value. -/
def toISOString (ms : Nat) : String := toString ms

/-! ## Data model of the parsed Tron transaction envelope

`TronTx` is the result of `JSON.parse(signedTxHex)` as accessed by
`decodeTransaction`: the claimed `txID`, the `signature` array (absent or
present), the `raw_data_hex` mirror of the signed bytes, and the structured
`raw_data` object.  `Option` marks fields the source guards against being
`undefined`. -/

/-- `raw_data.contract[i].parameter.value` of a `TriggerSmartContract` entry.
The source reads it through `contract.parameter?.value`; a missing
`parameter` or `value` is collapsed into `Contract.parameter = none`. -/
structure ContractValue where
  contract_address : String
  owner_address : String
  data : Option String
deriving DecidableEq, Repr

/-- One entry of `raw_data.contract`. -/
structure Contract where
  type : String
  parameter : Option ContractValue
deriving DecidableEq, Repr

/-- The structured `raw_data` mirror.  A missing `expiration` behaves exactly
like `0` in every use (JavaScript truthiness), so it is a plain `Nat`. -/
structure RawData where
  contract : Option (List Contract)
  expiration : Nat
deriving DecidableEq, Repr

/-- The JSON-parsed signed transaction object. -/
structure TronTx where
  txID : String
  signature : Option (List String)
  raw_data_hex : Option String
  raw_data : Option RawData
deriving DecidableEq, Repr

/-- Decoded function parameters (`to`/`amount` for transfer,
`spender`/`amount` for approve; all absent for other selectors). -/
structure TronParameters where
  «to» : Option String := none
  amount : Option String := none
  spender : Option String := none
deriving DecidableEq, Repr

/-- The `DecodedTronTransaction` record returned by `decodeTransaction`. -/
structure DecodedTronTransaction where
  txID : String
  contractType : String
  contractAddress : String
  functionSelector : String
  parameters : TronParameters
  ownerAddress : String
  expiration : Nat
  rawTransaction : TronTx
deriving DecidableEq, Repr

/-- All fields of `DecodedTronTransaction` except the `rawTransaction` echo of
the input envelope. -/
structure DecodedCore where
  txID : String
  contractType : String
  contractAddress : String
  functionSelector : String
  parameters : TronParameters
  ownerAddress : String
  expiration : Nat
deriving DecidableEq, Repr

/-- Attach the input envelope as the `rawTransaction` field
(the source returns `rawTransaction: tx`). -/
def DecodedCore.attachRaw (c : DecodedCore) (tx : TronTx) : DecodedTronTransaction :=
  ⟨c.txID, c.contractType, c.contractAddress, c.functionSelector, c.parameters,
   c.ownerAddress, c.expiration, tx⟩

/-- The core fields of a decoded transaction, forgetting the envelope echo. -/
def DecodedTronTransaction.core (d : DecodedTronTransaction) : DecodedCore :=
  ⟨d.txID, d.contractType, d.contractAddress, d.functionSelector, d.parameters,
   d.ownerAddress, d.expiration⟩

/-- Result object of `tronWeb.trx.sendRawTransaction`. -/
structure BroadcastResult where
  result : Bool := false
  txid : Option String := none
  code : Option String := none
  message : Option String := none
deriving DecidableEq, Repr

/-- Result object of `tronWeb.trx.getTransactionInfo`: `id` truthy means the
transaction was found on-chain, `receipt_result` models `receipt?.result`. -/
structure TxInfo where
  id : Option String := none
  receipt_result : Option String := none
  resMessage : Option String := none
deriving DecidableEq, Repr

/-- The TronWeb chain-client capabilities consumed by the signer
implementation.  `getTransactionInfo` additionally receives the polling
attempt index, so that each poll of the chain can answer differently. -/
structure TronWebM where
  sha256 : List Nat → String
  ecRecover : List Nat → String → String → Nat → Except String String
  fromHex : String → String
  sendRawTransaction : TronTx → Except String BroadcastResult
  getTransactionInfo : Nat → String → Except String TxInfo

/-! ## decodeTransaction -/

/-- The signature-recovery block of `decodeTransaction`: split the first
signature entry into `r`, `s` and the recovery byte `v`, recover the signer
through the chain client, and format the recovered address.  A recovery
error is rethrown with the `Signature recovery failed:` prefix. -/
def ecRecoverStep (tw : TronWebM) (computedTxID s0 : String) : Except String String :=
  let messageBytes := hexToBytes computedTxID
  let sigBytes := hexToBytes s0
  let v := sigBytes.getD 64 0
  let r := bytesToHex (sigBytes.take 32)
  let s := bytesToHex ((sigBytes.drop 32).take 32)
  match tw.ecRecover messageBytes r s v with
  | .error e => .error ("Signature recovery failed: " ++ e)
  | .ok recoveredHex => .ok (tw.fromHex recoveredHex)

/-- The ABI-decoding step at the end of the `TriggerSmartContract` branch:
the call data must be pure hex; the `transfer` selector requires 136+ hex
characters with an all-zero address padding slot and yields `to`/`amount`;
the `approve` selector is handled identically yielding `spender`/`amount`;
any other selector yields an empty parameter set without error. -/
def decodeAbi (tw : TronWebM) (data : String) : Except String TronParameters :=
  let functionSelector := data.take 8
  if ¬ testHexPlus data then
    .error "Invalid transaction: data field contains non-hex characters"
  else if functionSelector = "a9059cbb" then
    if data.length < 136 then
      .error ("Invalid transfer data: expected 136+ hex chars, got " ++ toString data.length)
    else if ¬ testZerosPlus ((data.drop 8).take 24) then
      .error "Invalid transfer data: non-zero padding in address parameter"
    else
      let toHex := "41" ++ (data.drop 32).take 40
      let amount := toString ((jsBigInt? ("0x" ++ (data.drop 72).take 64)).getD 0)
      .ok { «to» := some (tw.fromHex toHex), amount := some amount }
  else if functionSelector = "095ea7b3" then
    if data.length < 136 then
      .error ("Invalid approve data: expected 136+ hex chars, got " ++ toString data.length)
    else if ¬ testZerosPlus ((data.drop 8).take 24) then
      .error "Invalid approve data: non-zero padding in address parameter"
    else
      let spenderHex := "41" ++ (data.drop 32).take 40
      let amount := toString ((jsBigInt? ("0x" ++ (data.drop 72).take 64)).getD 0)
      .ok { spender := some (tw.fromHex spenderHex), amount := some amount }
  else .ok {}

/-- The `TriggerSmartContract` branch of `decodeTransaction`: address
formatting, recovered-signer/owner comparison, the call-data format check,
the three mirror/raw integrity checks, then ABI extraction (`decodeAbi`). -/
def decodeContract (tw : TronWebM) (rawDataHex computedTxID recoveredBase58 : String)
    (c0 : Contract) (expiration : Nat) : Except String DecodedCore :=
  let contractType := c0.type
  if contractType = "TriggerSmartContract" then
    match c0.parameter with
    | none => .error "TypeError: Cannot read properties of undefined (reading 'contract_address')"
    | some value =>
      let contractAddress := tw.fromHex value.contract_address
      let ownerAddress := tw.fromHex value.owner_address
      if recoveredBase58 ≠ ownerAddress then
        .error ("Signature verification failed: recovered " ++ recoveredBase58 ++
          " but owner_address is " ++ ownerAddress)
      else
        match value.data with
        | none => .error "Invalid transaction: missing or malformed data field"
        | some data =>
          if data = "" ∨ data.length < 8 then
            .error "Invalid transaction: missing or malformed data field"
          else
            let dataLower := toLowerCase data
            let rawDataHexLower := toLowerCase rawDataHex
            if ¬ jsIncludes rawDataHexLower dataLower then
              .error "Transaction integrity check failed: ABI call data in raw_data does not match raw_data_hex (possible raw_data tampering)"
            else
              let contractAddrHex := toLowerCase value.contract_address
              if ¬ jsIncludes rawDataHexLower contractAddrHex then
                .error "Transaction integrity check failed: contract_address in raw_data does not match raw_data_hex (possible raw_data tampering)"
              else
                let ownerAddrHex := toLowerCase value.owner_address
                if ¬ jsIncludes rawDataHexLower ownerAddrHex then
                  .error "Transaction integrity check failed: owner_address in raw_data does not match raw_data_hex (possible raw_data tampering)"
                else
                  match decodeAbi tw data with
                  | .error e => .error e
                  | .ok params =>
                    .ok ⟨computedTxID, contractType, contractAddress, data.take 8,
                      params, ownerAddress, expiration⟩
  else .error ("Unsupported contract type: " ++ contractType)

/-- Everything `decodeTransaction` does after the signature format checks:
`raw_data_hex` presence and hex format, hash recomputation and comparison
against the claimed `txID`, signature recovery from the first signature
entry, `raw_data.contract` extraction, and the contract branch. -/
def decodeTail (tw : TronWebM) (raw_data_hex : Option String) (claimedTxID : String)
    (raw_data : Option RawData) (s0 : String) : Except String DecodedCore :=
  match raw_data_hex with
  | none => .error "Invalid transaction: missing raw_data_hex"
  | some rawDataHex =>
    if rawDataHex = "" then .error "Invalid transaction: missing raw_data_hex"
    else if ¬ testHexPlus rawDataHex then
      .error "Invalid transaction: raw_data_hex contains non-hex characters"
    else
      let computedTxID := tw.sha256 (hexToBytes rawDataHex)
      if computedTxID ≠ claimedTxID then
        .error "Invalid transaction: txID does not match raw_data hash (possible tampering)"
      else
        match ecRecoverStep tw computedTxID s0 with
        | .error e => .error e
        | .ok recoveredBase58 =>
          match raw_data with
          | none => .error "Invalid transaction: missing raw_data.contract"
          | some rawData =>
            match rawData.contract with
            | none => .error "Invalid transaction: missing raw_data.contract"
            | some [] => .error "Invalid transaction: empty contract array"
            | some (c0 :: _) =>
              decodeContract tw rawDataHex computedTxID recoveredBase58 c0 rawData.expiration

/-- The facilitator signer's `decodeTransaction`, starting from the
JSON-parsed transaction object: signature array presence, per-entry
130-hex-character format check, then `decodeTail`, attaching the input
envelope as `rawTransaction` on success. -/
def decodeTransaction (tw : TronWebM) (tx : TronTx) : Except String DecodedTronTransaction :=
  match tx.signature with
  | none => .error "Invalid transaction: missing or empty signature array"
  | some [] => .error "Invalid transaction: missing or empty signature array"
  | some (s0 :: rest) =>
    if (s0 :: rest).all testHex130 then
      (decodeTail tw tx.raw_data_hex tx.txID tx.raw_data s0).map (fun core => core.attachRaw tx)
    else .error "Invalid transaction: malformed signature"

/-! ## broadcastTransaction and confirmTransaction -/

/-- The facilitator signer's `broadcastTransaction`, starting from the
JSON-parsed signed transaction: send it through the chain client, require the
transport's explicit success flag or `SUCCESS` code, otherwise throw
`Broadcast failed:` with the hex-decoded error message (or the code, or a
generic text). -/
def broadcastTransaction (tw : TronWebM) (signedTx : TronTx) : Except String String :=
  match tw.sendRawTransaction signedTx with
  | .error e => .error e
  | .ok result =>
    if result.result = true ∨ result.code = some "SUCCESS" then
      .ok (jsOrOpt result.txid signedTx.txID)
    else
      let errorMsg :=
        if optTruthy result.message then hexToUtf8 (result.message.getD "")
        else jsOrOpt result.code "Unknown broadcast error"
      .error ("Broadcast failed: " ++ errorMsg)

/-- Maximum number of confirmation polling attempts. -/
def maxAttempts : Nat := 30

/-- Fixed polling interval in milliseconds. -/
def pollInterval : Nat := 3000

/-- The message thrown when a transaction is on-chain with a defined terminal
non-success execution status. -/
def execFailedMsg (status : String) (resMessage : Option String) : String :=
  "Transaction on-chain but execution failed: " ++ status ++
    (if optTruthy resMessage then " — " ++ resMessage.getD "" else "")

/-- The message thrown when a transaction is found on-chain but still has no
execution receipt after the early attempt threshold. -/
def missingReceiptMsg : String :=
  "Transaction found on-chain but missing execution receipt after multiple checks"

/-- The message thrown when the attempt budget is exhausted. -/
def timeoutMsg : String :=
  "Transaction confirmation timeout after " ++ toString (maxAttempts * pollInterval / 1000) ++ "s"

/-- The `catch` block of the confirmation loop: an error whose message
contains `execution failed` or `missing execution receipt` is rethrown
immediately; any other error is rethrown only on the last attempt, and is
otherwise swallowed so that polling continues. -/
def catchClassify (attempt : Nat) (e : String) : Option (Except String Unit) :=
  if jsIncludes e "execution failed" || jsIncludes e "missing execution receipt" then
    some (.error e)
  else if attempt = maxAttempts - 1 then some (.error e)
  else none

/-- One iteration of the confirmation loop body at the given attempt index:
`some r` means the loop terminates with outcome `r`, `none` means it sleeps
and polls again. -/
def confirmBody (tw : TronWebM) (txID : String) (attempt : Nat) : Option (Except String Unit) :=
  match tw.getTransactionInfo attempt txID with
  | .error e => catchClassify attempt e
  | .ok txInfo =>
    if optTruthy txInfo.id then
      if txInfo.receipt_result = some "SUCCESS" then some (.ok ())
      else if optTruthy txInfo.receipt_result then
        catchClassify attempt (execFailedMsg (txInfo.receipt_result.getD "") txInfo.resMessage)
      else if attempt > 5 then catchClassify attempt missingReceiptMsg
      else none
    else none

/-- The confirmation loop from a given attempt index with the given number of
remaining attempts; exhausting the budget throws the timeout error. -/
def confirmFrom (tw : TronWebM) (txID : String) : Nat → Nat → Except String Unit
  | _, 0 => .error timeoutMsg
  | attempt, fuel + 1 =>
    match confirmBody tw txID attempt with
    | some r => r
    | none => confirmFrom tw txID (attempt + 1) fuel

/-- The facilitator signer's `confirmTransaction`: poll the execution status
up to `maxAttempts` times. -/
def confirmTransaction (tw : TronWebM) (txID : String) : Except String Unit :=
  confirmFrom tw txID 0 maxAttempts

/-! ## The facilitator scheme: verify and settle

`Signer` mirrors the `FacilitatorTronSigner` interface consumed by
`ExactTronScheme`; each capability may throw (`Except.error`).  `verify` and
`settle` are parametric in the signer.  The explicit `now` argument models
`Date.now()`.  The outer `Except` of `verify`/`settle` carries a JavaScript
exception that escapes the method (only the two uncaught `BigInt`
conversions can produce one). -/

/-- The `FacilitatorTronSigner` capability record. -/
structure Signer where
  getAddresses : List String
  decodeTransaction : String → String → Except String DecodedTronTransaction
  getTokenBalance : String → String → String → Except String String
  estimateEnergy : String → String → String → String → String → Except String Nat
  broadcastTransaction : String → String → Except String String
  confirmTransaction : String → String → Except String Unit

/-- The `signedTransaction`/`from` payment payload (`ExactTronPayloadV2`). -/
structure ExactTronPayloadV2 where
  signedTransaction : String
  «from» : String
  txID : Option String := none
deriving DecidableEq, Repr

/-- The raw payload slot of the x402 payment payload, as seen by the
`isSignedTransactionPayload` type guard: either a signed-transaction payload
or anything else (approve payloads, malformed objects). -/
inductive RawPayload where
  | signedTx (p : ExactTronPayloadV2)
  | otherPayload
deriving DecidableEq, Repr

/-- The accepted scheme/network pair of the x402 payment payload. -/
structure AcceptedInfo where
  scheme : String
  network : String
deriving DecidableEq, Repr

/-- The x402 payment payload handed to `verify`/`settle`. -/
structure PaymentPayload where
  accepted : AcceptedInfo
  payload : RawPayload
deriving DecidableEq, Repr

/-- The payment requirements object (fields read by the facilitator). -/
structure PaymentRequirements where
  scheme : String
  network : String
  asset : String
  amount : String
  payTo : String
  maxTimeoutSeconds : Nat := 0
deriving DecidableEq, Repr

/-- `TronFacilitatorConfig` after constructor defaulting
(`maxEnergyFeeSun` defaults to `1e8`). -/
structure TronFacilitatorConfig where
  useWrapperContract : Bool := false
  maxEnergyFeeSun : Nat := 100000000
  feeDelegation : Bool := false
deriving DecidableEq, Repr

/-- The verification response. -/
structure VerifyResponse where
  isValid : Bool
  invalidReason : Option String := none
  invalidMessage : Option String := none
  payer : String
deriving DecidableEq, Repr

/-- The settlement response. -/
structure SettleResponse where
  success : Bool
  transaction : String
  network : String
  errorReason : Option String := none
  errorMessage : Option String := none
  payer : String
deriving DecidableEq, Repr

/-- `ExactTronScheme.verify`: the ordered short-circuiting checks of the
facilitator.  Oracles that may throw are consulted through `signer`; the
balance branch fails closed, the energy-estimate branch fails open. -/
def verify (signer : Signer) (config : TronFacilitatorConfig) (payload : PaymentPayload)
    (requirements : PaymentRequirements) (now : Nat) : Except String VerifyResponse :=
  if payload.accepted.scheme ≠ "exact" ∨ requirements.scheme ≠ "exact" then
    .ok { isValid := false, invalidReason := some "unsupported_scheme", payer := "" }
  else if payload.accepted.network ≠ requirements.network then
    .ok { isValid := false, invalidReason := some "network_mismatch", payer := "" }
  else
    match payload.payload with
    | .otherPayload =>
      .ok { isValid := false, invalidReason := some "invalid_tron_payload_type",
            invalidMessage := some "Expected signed transaction payload with 'signedTransaction' and 'from' fields",
            payer := "" }
    | .signedTx tronPayload =>
      match signer.decodeTransaction tronPayload.signedTransaction requirements.network with
      | .error e =>
        .ok { isValid := false, invalidReason := some "invalid_tron_payload_decode_failed",
              invalidMessage := some e, payer := tronPayload.«from» }
      | .ok decoded =>
        if decoded.contractType ≠ "TriggerSmartContract" then
          .ok { isValid := false, invalidReason := some "invalid_tron_payload_not_smart_contract",
                invalidMessage := some ("Expected TriggerSmartContract, got " ++ decoded.contractType),
                payer := tronPayload.«from» }
        else if decoded.functionSelector ≠ "a9059cbb" then
          .ok { isValid := false, invalidReason := some "invalid_tron_payload_not_transfer",
                invalidMessage := some ("Expected transfer(address,uint256) selector a9059cbb, got " ++ decoded.functionSelector),
                payer := tronPayload.«from» }
        else if decoded.contractAddress ≠ requirements.asset then
          .ok { isValid := false, invalidReason := some "invalid_tron_payload_asset_mismatch",
                invalidMessage := some ("Expected asset " ++ requirements.asset ++ ", transaction targets " ++ decoded.contractAddress),
                payer := tronPayload.«from» }
        else if decoded.parameters.«to» ≠ some requirements.payTo then
          .ok { isValid := false, invalidReason := some "invalid_tron_payload_recipient_mismatch",
                invalidMessage := some ("Expected recipient " ++ requirements.payTo ++ ", transaction sends to " ++ jsShowOpt decoded.parameters.«to»),
                payer := tronPayload.«from» }
        else
          match jsBigInt? (jsOrOpt decoded.parameters.amount "0") with
          | none => .error (bigIntSyntaxError (jsOrOpt decoded.parameters.amount "0"))
          | some txAmount =>
            match jsBigInt? requirements.amount with
            | none => .error (bigIntSyntaxError requirements.amount)
            | some requiredAmount =>
              if txAmount < requiredAmount then
                .ok { isValid := false, invalidReason := some "invalid_tron_payload_amount_insufficient",
                      invalidMessage := some ("Required " ++ toString requiredAmount ++ ", transaction sends " ++ toString txAmount),
                      payer := tronPayload.«from» }
              else if decoded.ownerAddress ≠ tronPayload.«from» then
                .ok { isValid := false, invalidReason := some "invalid_tron_payload_sender_mismatch",
                      invalidMessage := some "Transaction owner does not match claimed sender",
                      payer := tronPayload.«from» }
              else if signer.getAddresses.contains decoded.ownerAddress then
                .ok { isValid := false, invalidReason := some "invalid_tron_payload_facilitator_is_sender",
                      invalidMessage := some "Facilitator address cannot be the payment sender",
                      payer := tronPayload.«from» }
              else if decoded.expiration ≠ 0 ∧ decoded.expiration < now then
                .ok { isValid := false, invalidReason := some "invalid_tron_payload_expired",
                      invalidMessage := some ("Transaction expired at " ++ toISOString decoded.expiration),
                      payer := tronPayload.«from» }
              else
                match signer.getTokenBalance requirements.asset decoded.ownerAddress requirements.network with
                | .error e =>
                  .ok { isValid := false, invalidReason := some "invalid_tron_payload_balance_check_failed",
                        invalidMessage := some e, payer := tronPayload.«from» }
                | .ok balance =>
                  match jsBigInt? balance with
                  | none =>
                    .ok { isValid := false, invalidReason := some "invalid_tron_payload_balance_check_failed",
                          invalidMessage := some (bigIntSyntaxError balance), payer := tronPayload.«from» }
                  | some balanceBigInt =>
                    if balanceBigInt < requiredAmount then
                      .ok { isValid := false, invalidReason := some "invalid_tron_payload_insufficient_balance",
                            invalidMessage := some ("Sender balance " ++ balance ++ " < required " ++ requirements.amount),
                            payer := tronPayload.«from» }
                    else
                      match signer.estimateEnergy requirements.asset decoded.ownerAddress
                          (jsOrOpt decoded.parameters.«to» requirements.payTo)
                          requirements.amount requirements.network with
                      | .error _ =>
                        .ok { isValid := true, invalidReason := none, payer := tronPayload.«from» }
                      | .ok estimatedEnergy =>
                        let estimatedFeeSun := estimatedEnergy * 420
                        if estimatedFeeSun > config.maxEnergyFeeSun then
                          .ok { isValid := false, invalidReason := some "invalid_tron_payload_energy_too_expensive",
                                invalidMessage := some ("Estimated energy cost " ++ toString estimatedFeeSun ++ " SUN exceeds max " ++ toString config.maxEnergyFeeSun ++ " SUN"),
                                payer := tronPayload.«from» }
                        else
                          .ok { isValid := true, invalidReason := none, payer := tronPayload.«from» }

/-- The payload slot as cast (unchecked) by `settle` after a successful
verification; the cast is only reached when the guard in `verify` accepted
the payload, so the default is never observable. -/
def castTronPayload (p : RawPayload) : ExactTronPayloadV2 :=
  match p with
  | .signedTx tp => tp
  | .otherPayload => ⟨"undefined", "undefined", none⟩

/-- `ExactTronScheme.settle`: re-run the full verification, propagate a
rejection with an empty transaction id, otherwise re-decode, broadcast and
confirm, mapping any thrown error to the single
`transaction_broadcast_failed` reason with the error message as text. -/
def settle (signer : Signer) (config : TronFacilitatorConfig) (payload : PaymentPayload)
    (requirements : PaymentRequirements) (now : Nat) : Except String SettleResponse :=
  match verify signer config payload requirements now with
  | .error e => .error e
  | .ok verification =>
    if verification.isValid = false then
      .ok { success := false, network := payload.accepted.network, transaction := "",
            errorReason := some (verification.invalidReason.getD "verification_failed"),
            errorMessage := verification.invalidMessage,
            payer := jsOrStr verification.payer "" }
    else
      let tronPayload := castTronPayload payload.payload
      match signer.decodeTransaction tronPayload.signedTransaction requirements.network with
      | .error e =>
        .ok { success := false, errorReason := some "transaction_broadcast_failed",
              errorMessage := some e, transaction := "", network := payload.accepted.network,
              payer := jsOrStr verification.payer "" }
      | .ok _ =>
        match signer.broadcastTransaction tronPayload.signedTransaction requirements.network with
        | .error e =>
          .ok { success := false, errorReason := some "transaction_broadcast_failed",
                errorMessage := some e, transaction := "", network := payload.accepted.network,
                payer := jsOrStr verification.payer "" }
        | .ok txID =>
          match signer.confirmTransaction txID requirements.network with
          | .error e =>
            .ok { success := false, errorReason := some "transaction_broadcast_failed",
                  errorMessage := some e, transaction := "", network := payload.accepted.network,
                  payer := jsOrStr verification.payer "" }
          | .ok _ =>
            .ok { success := true, transaction := txID, network := payload.accepted.network,
                  payer := verification.payer }

/-! ## Concrete evaluation fixtures

A toy chain client and a well-formed transfer envelope used by the witness
theorems.  The chain's hash is the constant `"cafe01"`, recovery returns the
hex form of the owner, and address display formatting prepends `"T"`. -/

/-- A concrete chain client for evaluation. -/
def sampleChain : TronWebM :=
  { sha256 := fun _ => "cafe01"
    ecRecover := fun _ _ _ _ => .ok "41aabb"
    fromHex := fun h => "T" ++ h
    sendRawTransaction := fun _ => .ok { result := true, txid := some "txid123" }
    getTransactionInfo := fun _ _ => .ok { id := some "txid123", receipt_result := some "SUCCESS" } }

/-- A well-formed `transfer(address,uint256)` call-data payload: selector,
24 zero padding characters, a 40-character address, a 64-character amount
(value 15). -/
def sampleData : String :=
  "a9059cbb0000000000000000000000002222222222222222222222222222222222222222000000000000000000000000000000000000000000000000000000000000000f"

/-- Canonical raw bytes hex containing the contract address, the owner
address and the call data as substrings. -/
def sampleRawHex : String := "41c0de41aabb" ++ sampleData

/-- A 130-hex-character signature entry. -/
def sig130a : String :=
  "aaaaaaaaaaaaaaaaaaaaaaaaaaaaaaaaaaaaaaaaaaaaaaaaaaaaaaaaaaaaaaaaaaaaaaaaaaaaaaaaaaaaaaaaaaaaaaaaaaaaaaaaaaaaaaaaaaaaaaaaaaaaaaaaaa"

/-- A second, different 130-hex-character signature entry. -/
def sig130b : String :=
  "bbbbbbbbbbbbbbbbbbbbbbbbbbbbbbbbbbbbbbbbbbbbbbbbbbbbbbbbbbbbbbbbbbbbbbbbbbbbbbbbbbbbbbbbbbbbbbbbbbbbbbbbbbbbbbbbbbbbbbbbbbbbbbbbbb"

/-- A third, different 130-hex-character signature entry. -/
def sig130c : String :=
  "cccccccccccccccccccccccccccccccccccccccccccccccccccccccccccccccccccccccccccccccccccccccccccccccccccccccccccccccccccccccccccccccccc"

/-- A well-formed signed transfer envelope accepted by `decodeTransaction`
under `sampleChain`. -/
def sampleTx : TronTx :=
  { txID := "cafe01"
    signature := some [sig130a]
    raw_data_hex := some sampleRawHex
    raw_data := some { contract := some [⟨"TriggerSmartContract", some ⟨"41c0de", "41aabb", some sampleData⟩⟩],
                       expiration := 999 } }

/-- The decoded record produced for `sampleTx`. -/
def sampleDecoded : DecodedTronTransaction :=
  { txID := "cafe01"
    contractType := "TriggerSmartContract"
    contractAddress := "T41c0de"
    functionSelector := "a9059cbb"
    parameters := { «to» := some "T412222222222222222222222222222222222222222", amount := some "15" }
    ownerAddress := "T41aabb"
    expiration := 999
    rawTransaction := sampleTx }

/-! ## Decode-level helper lemmas -/

/-- Every successful result of the contract branch carries the computed
transaction id it was given. -/
theorem decodeContract_ok_txID {tw : TronWebM} {rdh ctid rec : String} {c0 : Contract}
    {exp : Nat} {core : DecodedCore}
    (h : decodeContract tw rdh ctid rec c0 exp = .ok core) : core.txID = ctid := by
  simp only [decodeContract] at h
  repeat' split at h
  all_goals (first | exact Except.noConfusion h | (cases h; rfl))

/-- Every successful result of `decodeTail` has a present `raw_data_hex`
whose recomputed hash simultaneously equals the claimed transaction id and
the returned `txID`. -/
theorem decodeTail_ok_txID {tw : TronWebM} {rdh? : Option String} {claimed : String}
    {rd? : Option RawData} {s0 : String} {core : DecodedCore}
    (h : decodeTail tw rdh? claimed rd? s0 = .ok core) :
    ∃ rdh, rdh? = some rdh ∧ tw.sha256 (hexToBytes rdh) = claimed ∧
      core.txID = tw.sha256 (hexToBytes rdh) := by
  rcases rdh? with _ | rdh
  · exact Except.noConfusion h
  · refine ⟨rdh, rfl, ?_⟩
    simp only [decodeTail] at h
    by_cases h1 : rdh = ""
    · rw [if_pos h1] at h; exact Except.noConfusion h
    · rw [if_neg h1] at h
      by_cases h2 : ¬ testHexPlus rdh = true
      · rw [if_pos h2] at h; exact Except.noConfusion h
      · rw [if_neg h2] at h
        by_cases h3 : tw.sha256 (hexToBytes rdh) ≠ claimed
        · rw [if_pos h3] at h; exact Except.noConfusion h
        · rw [if_neg h3] at h
          rcases hrec : ecRecoverStep tw (tw.sha256 (hexToBytes rdh)) s0 with e | rec <;>
            rw [hrec] at h
          · exact Except.noConfusion h
          · simp only [] at h
            rcases rd? with _ | rd
            · exact Except.noConfusion h
            · simp only [] at h
              rcases hc : rd.contract with _ | cs <;> rw [hc] at h
              · exact Except.noConfusion h
              · rcases cs with _ | ⟨c0, rest⟩
                · exact Except.noConfusion h
                · push_neg at h3
                  exact ⟨h3, decodeContract_ok_txID h⟩

/-- Every successful decode factors through `decodeTail` on the first
signature entry, with the envelope attached as `rawTransaction`. -/
theorem decodeTransaction_ok_factor {tw : TronWebM} {tx : TronTx} {d : DecodedTronTransaction}
    (h : decodeTransaction tw tx = .ok d) :
    ∃ s0 rest core, tx.signature = some (s0 :: rest) ∧
      decodeTail tw tx.raw_data_hex tx.txID tx.raw_data s0 = .ok core ∧
      d = core.attachRaw tx := by
  unfold decodeTransaction at h
  rcases hsig : tx.signature with _ | sigs <;> rw [hsig] at h
  · exact Except.noConfusion h
  · rcases sigs with _ | ⟨s0, rest⟩
    · exact Except.noConfusion h
    · simp only [] at h
      by_cases hall : (s0 :: rest).all testHex130 = true
      · rw [if_pos hall] at h
        rcases htl : decodeTail tw tx.raw_data_hex tx.txID tx.raw_data s0 with e | core <;>
          rw [htl] at h
        · exact Except.noConfusion h
        · simp only [Except.map] at h
          cases h
          exact ⟨s0, rest, core, rfl, htl, rfl⟩
      · rw [if_neg hall] at h
        exact Except.noConfusion h

/-- C1: for every envelope accepted by `decodeTransaction`, the `txID` of the
returned record is the hash recomputed by the chain client over the
envelope's `raw_data_hex` — it is never taken from the caller-supplied
claimed `txID`; and whenever the recomputed hash differs from the claimed
`txID` on an envelope passing the preceding signature and raw-hex format
checks, decode fails with the hash-mismatch error instead of returning a
result. -/
theorem C1_canonical_txID (tw : TronWebM) (tx : TronTx) :
    (∀ d, decodeTransaction tw tx = .ok d →
        ∃ rdh, tx.raw_data_hex = some rdh ∧ d.txID = tw.sha256 (hexToBytes rdh)) ∧
    (∀ s0 rest rdh, tx.signature = some (s0 :: rest) →
        (s0 :: rest).all testHex130 = true →
        tx.raw_data_hex = some rdh → rdh ≠ "" → testHexPlus rdh = true →
        tw.sha256 (hexToBytes rdh) ≠ tx.txID →
        decodeTransaction tw tx =
          .error "Invalid transaction: txID does not match raw_data hash (possible tampering)") := by
  constructor
  · intro d hd
    obtain ⟨s0, rest, core, hsig, htl, hattach⟩ := decodeTransaction_ok_factor hd
    obtain ⟨rdh, hrdh, _, hcore⟩ := decodeTail_ok_txID htl
    exact ⟨rdh, hrdh, by rw [hattach]; exact hcore⟩
  · intro s0 rest rdh hsig hall hrdh hne hhex hsha
    unfold decodeTransaction
    rw [hsig]
    simp only []
    rw [if_pos hall]
    unfold decodeTail
    rw [hrdh]
    simp only []
    rw [if_neg hne, if_neg (fun hn => hn hhex), if_pos hsha]
    rfl

/-- Evaluation witness for C1: the sample envelope decodes with the
recomputed hash as its id, and the same envelope with a different claimed
id fails with the hash-mismatch error. -/
theorem C1_canonical_txID_witness :
    (∃ rdh, sampleTx.raw_data_hex = some rdh ∧
        sampleDecoded.txID = sampleChain.sha256 (hexToBytes rdh)) ∧
    decodeTransaction sampleChain { sampleTx with txID := "beef" } =
      .error "Invalid transaction: txID does not match raw_data hash (possible tampering)" :=
  ⟨(C1_canonical_txID sampleChain sampleTx).1 sampleDecoded (by decide),
   (C1_canonical_txID sampleChain { sampleTx with txID := "beef" }).2 sig130a [] sampleRawHex
     rfl (by decide) rfl (by decide) (by decide) (by decide)⟩

/-- C2: for every envelope reaching the mirror/raw integrity step of decode
(all earlier checks pass, the signature has already been recovered and
matched against the owner), if the lowercase hex of the ABI call data, the
contract address, or the owner address does not occur as a substring of the
lowercase `raw_data_hex`, decode fails with the integrity-mismatch error
identifying the first such field. -/
theorem C2_mirror_integrity (tw : TronWebM) (tx : TronTx) (s0 : String) (rest : List String)
    (rdh : String) (rd : RawData) (c0 : Contract) (cs : List Contract)
    (value : ContractValue) (data recovered : String)
    (hsig : tx.signature = some (s0 :: rest))
    (hall : (s0 :: rest).all testHex130 = true)
    (hrdh : tx.raw_data_hex = some rdh) (hne : rdh ≠ "") (hhex : testHexPlus rdh = true)
    (hsha : tw.sha256 (hexToBytes rdh) = tx.txID)
    (hrec : ecRecoverStep tw tx.txID s0 = .ok recovered)
    (hrd : tx.raw_data = some rd) (hc : rd.contract = some (c0 :: cs))
    (hty : c0.type = "TriggerSmartContract") (hpv : c0.parameter = some value)
    (hown : recovered = tw.fromHex value.owner_address)
    (hdata : value.data = some data) (hd8 : ¬ (data = "" ∨ data.length < 8)) :
    (jsIncludes (toLowerCase rdh) (toLowerCase data) = false →
      decodeTransaction tw tx = .error "Transaction integrity check failed: ABI call data in raw_data does not match raw_data_hex (possible raw_data tampering)") ∧
    (jsIncludes (toLowerCase rdh) (toLowerCase data) = true →
      jsIncludes (toLowerCase rdh) (toLowerCase value.contract_address) = false →
      decodeTransaction tw tx = .error "Transaction integrity check failed: contract_address in raw_data does not match raw_data_hex (possible raw_data tampering)") ∧
    (jsIncludes (toLowerCase rdh) (toLowerCase data) = true →
      jsIncludes (toLowerCase rdh) (toLowerCase value.contract_address) = true →
      jsIncludes (toLowerCase rdh) (toLowerCase value.owner_address) = false →
      decodeTransaction tw tx = .error "Transaction integrity check failed: owner_address in raw_data does not match raw_data_hex (possible raw_data tampering)") := by
  have hbase : decodeTransaction tw tx =
      (decodeContract tw rdh tx.txID recovered c0 rd.expiration).map
        (fun core => core.attachRaw tx) := by
    unfold decodeTransaction
    rw [hsig]
    simp only []
    rw [if_pos hall]
    unfold decodeTail
    rw [hrdh]
    simp only []
    rw [if_neg hne, if_neg (fun hn => hn hhex), hsha, if_neg (fun hn => hn rfl), hrec]
    simp only []
    rw [hrd]
    simp only []
    rw [hc]
  have hcontract : decodeContract tw rdh tx.txID recovered c0 rd.expiration =
      (if ¬ jsIncludes (toLowerCase rdh) (toLowerCase data) then
        Except.error "Transaction integrity check failed: ABI call data in raw_data does not match raw_data_hex (possible raw_data tampering)"
      else if ¬ jsIncludes (toLowerCase rdh) (toLowerCase value.contract_address) then
        Except.error "Transaction integrity check failed: contract_address in raw_data does not match raw_data_hex (possible raw_data tampering)"
      else if ¬ jsIncludes (toLowerCase rdh) (toLowerCase value.owner_address) then
        Except.error "Transaction integrity check failed: owner_address in raw_data does not match raw_data_hex (possible raw_data tampering)"
      else
        match decodeAbi tw data with
        | .error e => .error e
        | .ok params =>
          .ok ⟨tx.txID, c0.type, tw.fromHex value.contract_address, data.take 8,
            params, tw.fromHex value.owner_address, rd.expiration⟩) := by
    simp only [decodeContract]
    rw [if_pos hty, hpv]
    simp only []
    rw [if_neg (fun hn => hn hown), hdata]
    simp only []
    rw [if_neg hd8]
  constructor
  · intro h1
    rw [hbase, hcontract, if_pos (by simp [h1])]
    rfl
  · constructor
    · intro h1 h2
      rw [hbase, hcontract, if_neg (by simp [h1]), if_pos (by simp [h2])]
      rfl
    · intro h1 h2 h3
      rw [hbase, hcontract, if_neg (by simp [h1]), if_neg (by simp [h2]),
        if_pos (by simp [h3])]
      rfl

/-- An envelope whose `raw_data_hex` omits the ABI call data. -/
def sampleTxNoData : TronTx :=
  { sampleTx with raw_data_hex := some "41c0de41aabb" }

/-- An envelope whose `raw_data_hex` omits the contract address. -/
def sampleTxNoContract : TronTx :=
  { sampleTx with raw_data_hex := some ("41aabb" ++ sampleData) }

/-- An envelope whose `raw_data_hex` omits the owner address. -/
def sampleTxNoOwner : TronTx :=
  { sampleTx with raw_data_hex := some ("41c0de" ++ sampleData) }

/-- Evaluation witness for C2: dropping the call data, the contract address
or the owner address from the raw hex makes decode fail with the matching
integrity error. -/
theorem C2_mirror_integrity_witness :
    decodeTransaction sampleChain sampleTxNoData =
      .error "Transaction integrity check failed: ABI call data in raw_data does not match raw_data_hex (possible raw_data tampering)" ∧
    decodeTransaction sampleChain sampleTxNoContract =
      .error "Transaction integrity check failed: contract_address in raw_data does not match raw_data_hex (possible raw_data tampering)" ∧
    decodeTransaction sampleChain sampleTxNoOwner =
      .error "Transaction integrity check failed: owner_address in raw_data does not match raw_data_hex (possible raw_data tampering)" :=
  ⟨(C2_mirror_integrity sampleChain sampleTxNoData sig130a [] "41c0de41aabb"
      { contract := some [⟨"TriggerSmartContract", some ⟨"41c0de", "41aabb", some sampleData⟩⟩],
        expiration := 999 }
      ⟨"TriggerSmartContract", some ⟨"41c0de", "41aabb", some sampleData⟩⟩ []
      ⟨"41c0de", "41aabb", some sampleData⟩ sampleData "T41aabb"
      rfl (by decide) rfl (by decide) (by decide) (by decide) (by decide) rfl rfl rfl rfl
      (by decide) rfl (by decide)).1 (by decide),
   (C2_mirror_integrity sampleChain sampleTxNoContract sig130a [] ("41aabb" ++ sampleData)
      { contract := some [⟨"TriggerSmartContract", some ⟨"41c0de", "41aabb", some sampleData⟩⟩],
        expiration := 999 }
      ⟨"TriggerSmartContract", some ⟨"41c0de", "41aabb", some sampleData⟩⟩ []
      ⟨"41c0de", "41aabb", some sampleData⟩ sampleData "T41aabb"
      rfl (by decide) rfl (by decide) (by decide) (by decide) (by decide) rfl rfl rfl rfl
      (by decide) rfl (by decide)).2.1 (by decide) (by decide),
   (C2_mirror_integrity sampleChain sampleTxNoOwner sig130a [] ("41c0de" ++ sampleData)
      { contract := some [⟨"TriggerSmartContract", some ⟨"41c0de", "41aabb", some sampleData⟩⟩],
        expiration := 999 }
      ⟨"TriggerSmartContract", some ⟨"41c0de", "41aabb", some sampleData⟩⟩ []
      ⟨"41c0de", "41aabb", some sampleData⟩ sampleData "T41aabb"
      rfl (by decide) rfl (by decide) (by decide) (by decide) (by decide) rfl rfl rfl rfl
      (by decide) rfl (by decide)).2.2 (by decide) (by decide) (by decide)⟩

/-- Equality of decode outcomes up to the `rawTransaction` echo of the input
envelope. -/
def EqModuloRaw (a b : Except String DecodedTronTransaction) : Prop :=
  match a, b with
  | .ok d1, .ok d2 => d1.core = d2.core
  | .error e1, .error e2 => e1 = e2
  | _, _ => False

/-- C10 counterexample: two envelopes identical except in the signature entry
at index 1 — both entries matching the 130-hex-character format, and both
envelopes accepted by decode — produce different `decodeTransaction` results,
because the returned record echoes the whole input envelope in its
`rawTransaction` field.  This refutes the claim that decode produces the
same result. -/
theorem C10_counterexample :
    testHex130 sig130b = true ∧ testHex130 sig130c = true ∧
    (decodeTransaction sampleChain { sampleTx with signature := some [sig130a, sig130b] }).isOk = true ∧
    (decodeTransaction sampleChain { sampleTx with signature := some [sig130a, sig130c] }).isOk = true ∧
    decodeTransaction sampleChain { sampleTx with signature := some [sig130a, sig130b] } ≠
      decodeTransaction sampleChain { sampleTx with signature := some [sig130a, sig130c] } :=
  ⟨by decide, by decide, by decide, by decide, by decide⟩

/-- C10 amended: decode cryptographically verifies only the first signature
entry; entries at index 1 and beyond are format-checked only and never
recovered: two envelopes identical except in those entries (each matching
the 130-hex-character format) decode to the same outcome up to the
`rawTransaction` echo of the respective input envelope, and an envelope
whose extra entries fail the format check is rejected as malformed. -/
theorem C10_amended (tw : TronWebM) (tx : TronTx) (s0 : String) (rest1 rest2 : List String)
    (h1 : (s0 :: rest1).all testHex130 = true) (h2 : (s0 :: rest2).all testHex130 = true) :
    EqModuloRaw (decodeTransaction tw { tx with signature := some (s0 :: rest1) })
      (decodeTransaction tw { tx with signature := some (s0 :: rest2) }) ∧
    (∀ rest3, (s0 :: rest3).all testHex130 = false →
      decodeTransaction tw { tx with signature := some (s0 :: rest3) } =
        .error "Invalid transaction: malformed signature") := by
  constructor
  · unfold decodeTransaction
    simp only []
    rw [if_pos h1, if_pos h2]
    rcases decodeTail tw tx.raw_data_hex tx.txID tx.raw_data s0 with e | core
    · simp [EqModuloRaw, Except.map]
    · simp [EqModuloRaw, Except.map, DecodedCore.attachRaw, DecodedTronTransaction.core]
  · intro rest3 h3
    unfold decodeTransaction
    simp only []
    rw [if_neg (by simp [h3])]

/-- Evaluation witness for C10's amended statement: adding a second
format-valid signature entry leaves the decode outcome equal up to the
envelope echo, and a format-invalid second entry is rejected as malformed. -/
theorem C10_amended_witness :
    EqModuloRaw (decodeTransaction sampleChain { sampleTx with signature := some [sig130a, sig130b] })
      (decodeTransaction sampleChain { sampleTx with signature := some [sig130a] }) ∧
    decodeTransaction sampleChain { sampleTx with signature := some [sig130a, "bad"] } =
      .error "Invalid transaction: malformed signature" :=
  ⟨(C10_amended sampleChain sampleTx sig130a [sig130b] [] (by decide) (by decide)).1,
   (C10_amended sampleChain sampleTx sig130a [sig130b] [] (by decide) (by decide)).2
     ["bad"] (by decide)⟩

/-! ## Verify-level claims -/

/-- C3: among payloads passing all earlier verify checks (scheme, network,
payload shape, decode, contract kind, selector, asset, recipient) whose
amounts convert, verify rejects with the amount-insufficient reason exactly
when the decoded transfer amount is strictly less than the required amount;
the comparison is on arbitrary-precision integers (`Int` here, `BigInt` in
the source — no floating point is involved), so an amount exactly equal to
the requirement passes the amount check. -/
theorem C3_amount_insufficient_iff
    (signer : Signer) (config : TronFacilitatorConfig) (payload : PaymentPayload)
    (requirements : PaymentRequirements) (now : Nat) (tp : ExactTronPayloadV2)
    (decoded : DecodedTronTransaction) (txAmount requiredAmount : Int) (r : VerifyResponse)
    (hs : payload.accepted.scheme = "exact") (hrs : requirements.scheme = "exact")
    (hn : payload.accepted.network = requirements.network)
    (hp : payload.payload = .signedTx tp)
    (hd : signer.decodeTransaction tp.signedTransaction requirements.network = .ok decoded)
    (hct : decoded.contractType = "TriggerSmartContract")
    (hfs : decoded.functionSelector = "a9059cbb")
    (hca : decoded.contractAddress = requirements.asset)
    (hto : decoded.parameters.«to» = some requirements.payTo)
    (hta : jsBigInt? (jsOrOpt decoded.parameters.amount "0") = some txAmount)
    (hra : jsBigInt? requirements.amount = some requiredAmount)
    (hv : verify signer config payload requirements now = .ok r) :
    (r.invalidReason = some "invalid_tron_payload_amount_insufficient" ↔
      txAmount < requiredAmount) ∧
    (txAmount < requiredAmount →
      r = { isValid := false, invalidReason := some "invalid_tron_payload_amount_insufficient",
            invalidMessage := some ("Required " ++ toString requiredAmount ++
              ", transaction sends " ++ toString txAmount),
            payer := tp.«from» }) := by
  unfold verify at hv
  rw [hp] at hv
  simp only [hs, hrs, hn, hd, hct, hfs, hca, hto, hta, hra] at hv
  simp only [ne_eq, not_true, or_self, if_false, if_neg, not_false_iff, ite_false] at hv
  by_cases hlt : txAmount < requiredAmount
  · rw [if_pos hlt] at hv
    cases hv
    exact ⟨by simp [hlt], fun _ => rfl⟩
  · rw [if_neg hlt] at hv
    repeat' split at hv
    all_goals (cases hv; exact ⟨by simp [hlt], fun hcon => absurd hcon hlt⟩)

/-- Payment requirements matched by the sample envelope. -/
def sampleRequirements : PaymentRequirements :=
  { scheme := "exact", network := "tron:27Lqcw", asset := "T41c0de", amount := "15",
    payTo := "T412222222222222222222222222222222222222222" }

/-- The same requirements asking for one unit more than the transfer sends. -/
def sampleRequirements16 : PaymentRequirements := { sampleRequirements with amount := "16" }

/-- The signed-transaction payload slot of the sample x402 payload. -/
def sampleTronPayload : ExactTronPayloadV2 := ⟨"sig-json", "T41aabb", none⟩

/-- The x402 payment payload wrapping the sample envelope. -/
def samplePayload : PaymentPayload :=
  { accepted := ⟨"exact", "tron:27Lqcw"⟩, payload := .signedTx sampleTronPayload }

/-- A facilitator signer whose decode yields the sample decoded transfer and
whose oracles answer successfully. -/
def sampleSigner : Signer :=
  { getAddresses := ["TFacilitator"]
    decodeTransaction := fun _ _ => decodeTransaction sampleChain sampleTx
    getTokenBalance := fun _ _ _ => .ok "5000000"
    estimateEnergy := fun _ _ _ _ _ => .ok 100
    broadcastTransaction := fun _ _ => broadcastTransaction sampleChain sampleTx
    confirmTransaction := fun txID _ => confirmTransaction sampleChain txID }

/-- The accepting verification response for the sample inputs. -/
def sampleValid : VerifyResponse := { isValid := true, invalidReason := none, payer := "T41aabb" }

/-- The amount-insufficient response produced against `sampleRequirements16`. -/
def sampleAmountRejected : VerifyResponse :=
  { isValid := false, invalidReason := some "invalid_tron_payload_amount_insufficient",
    invalidMessage := some "Required 16, transaction sends 15", payer := "T41aabb" }

/-- Evaluation witness for C3: a 15-unit transfer against a 16-unit
requirement is rejected as amount-insufficient, and against a 15-unit
requirement the amount check passes (the iff instantiates on both sides). -/
theorem C3_amount_insufficient_iff_witness :
    ((some "invalid_tron_payload_amount_insufficient" =
        some "invalid_tron_payload_amount_insufficient") ↔ ((15 : Int) < 16)) ∧
    (((none : Option String) = some "invalid_tron_payload_amount_insufficient") ↔
      ((15 : Int) < 15)) :=
  ⟨(C3_amount_insufficient_iff sampleSigner {} samplePayload sampleRequirements16 50
      sampleTronPayload sampleDecoded 15 16 sampleAmountRejected
      rfl rfl rfl rfl (by decide) rfl rfl rfl rfl (by decide) (by decide) (by decide)).1,
   (C3_amount_insufficient_iff sampleSigner {} samplePayload sampleRequirements 50
      sampleTronPayload sampleDecoded 15 15 sampleValid
      rfl rfl rfl rfl (by decide) rfl rfl rfl rfl (by decide) (by decide) (by decide)).1⟩

/-- C5: if the decoded owner address is one of the facilitator's own
operating addresses (`signer.getAddresses`), verify rejects with the
facilitator-is-sender reason even when every other check on the payload and
requirements passes — the balance and energy oracles are arbitrary and are
never consulted. -/
theorem C5_facilitator_is_sender
    (signer : Signer) (config : TronFacilitatorConfig) (payload : PaymentPayload)
    (requirements : PaymentRequirements) (now : Nat) (tp : ExactTronPayloadV2)
    (decoded : DecodedTronTransaction) (txAmount requiredAmount : Int)
    (hs : payload.accepted.scheme = "exact") (hrs : requirements.scheme = "exact")
    (hn : payload.accepted.network = requirements.network)
    (hp : payload.payload = .signedTx tp)
    (hd : signer.decodeTransaction tp.signedTransaction requirements.network = .ok decoded)
    (hct : decoded.contractType = "TriggerSmartContract")
    (hfs : decoded.functionSelector = "a9059cbb")
    (hca : decoded.contractAddress = requirements.asset)
    (hto : decoded.parameters.«to» = some requirements.payTo)
    (hta : jsBigInt? (jsOrOpt decoded.parameters.amount "0") = some txAmount)
    (hra : jsBigInt? requirements.amount = some requiredAmount)
    (hge : ¬ txAmount < requiredAmount)
    (hsm : decoded.ownerAddress = tp.«from»)
    (hfac : signer.getAddresses.contains tp.«from» = true) :
    verify signer config payload requirements now =
      .ok { isValid := false, invalidReason := some "invalid_tron_payload_facilitator_is_sender",
            invalidMessage := some "Facilitator address cannot be the payment sender",
            payer := tp.«from» } := by
  unfold verify
  rw [hp]
  simp only [hs, hrs, hn, hd, hct, hfs, hca, hto, hta, hra, hsm, hfac, ne_eq, not_true,
    or_self, eq_self_iff_true, not_false_iff, ite_true, ite_false, if_true, if_false]
  rw [if_neg hge]

/-- A signer whose operating address list contains the sample payer. -/
def sampleSignerFac : Signer := { sampleSigner with getAddresses := ["T41aabb"] }

/-- Evaluation witness for C5: when the facilitator operates the payer's
address, the otherwise fully valid sample payment is rejected as
facilitator-is-sender. -/
theorem C5_facilitator_is_sender_witness :
    verify sampleSignerFac {} samplePayload sampleRequirements 50 =
      .ok { isValid := false, invalidReason := some "invalid_tron_payload_facilitator_is_sender",
            invalidMessage := some "Facilitator address cannot be the payment sender",
            payer := "T41aabb" } :=
  C5_facilitator_is_sender sampleSignerFac {} samplePayload sampleRequirements 50
    sampleTronPayload sampleDecoded 15 15
    rfl rfl rfl rfl (by decide) rfl rfl rfl rfl (by decide) (by decide) (by decide) rfl
    (by decide)

/-- Replace the `raw_data.expiration` of an envelope. -/
def TronTx.setExpiration (tx : TronTx) (e : Nat) : TronTx :=
  { tx with raw_data := tx.raw_data.map (fun rd => { rd with expiration := e }) }

/-- The contract branch threads its expiration argument only into the final
record. -/
theorem decodeContract_setExp (tw : TronWebM) (rdh ctid rec : String) (c0 : Contract)
    (e e' : Nat) :
    decodeContract tw rdh ctid rec c0 e =
      (decodeContract tw rdh ctid rec c0 e').map (fun core => { core with expiration := e }) := by
  simp only [decodeContract]
  repeat' split
  all_goals simp [Except.map]

/-- `decodeTail` threads the expiration of `raw_data` only into the final
record. -/
theorem decodeTail_setExp (tw : TronWebM) (rdh? : Option String) (claimed : String)
    (rd? : Option RawData) (s0 : String) (e : Nat) :
    decodeTail tw rdh? claimed (rd?.map (fun rd => { rd with expiration := e })) s0 =
      (decodeTail tw rdh? claimed rd? s0).map (fun core => { core with expiration := e }) := by
  simp only [Option.map]
  rcases rd? with _ | rd
  · simp only [decodeTail]
    rcases rdh? with _ | rdh
    · rfl
    · simp only []
      split
      · rfl
      · split
        · rfl
        · split
          · rfl
          · cases ecRecoverStep tw (tw.sha256 (hexToBytes rdh)) s0 <;> rfl
  · simp only [decodeTail]
    rcases rdh? with _ | rdh
    · rfl
    · simp only []
      split
      · rfl
      · split
        · rfl
        · split
          · rfl
          · cases ecRecoverStep tw (tw.sha256 (hexToBytes rdh)) s0
            · rfl
            · simp only []
              cases hc : rd.contract
              · rfl
              · rename_i cs
                cases cs
                · rfl
                · exact decodeContract_setExp tw rdh (tw.sha256 (hexToBytes rdh)) _ _ e rd.expiration

/-- Decode never evaluates the expiration: changing it only changes the
`expiration` field (and the envelope echo) of a successful result, and
changes nothing of a failing one. -/
theorem decodeTransaction_setExpiration (tw : TronWebM) (tx : TronTx) (e : Nat) :
    decodeTransaction tw (tx.setExpiration e) =
      (decodeTransaction tw tx).map
        (fun d => { d with expiration := e, rawTransaction := tx.setExpiration e }) := by
  unfold decodeTransaction
  show (match tx.signature with
    | none => _
    | some [] => _
    | some (s0 :: rest) => _) = _
  cases hsig : tx.signature
  · rfl
  · rename_i sigs
    cases sigs
    · rfl
    · rename_i s0 rest
      simp only []
      split
      · show Except.map _ (decodeTail tw tx.raw_data_hex tx.txID (tx.raw_data.map _) s0) = _
        rw [decodeTail_setExp]
        rcases decodeTail tw tx.raw_data_hex tx.txID tx.raw_data s0 with err | core
        · rfl
        · simp [Except.map, DecodedCore.attachRaw, TronTx.setExpiration]
      · rfl

/-- A signer whose decode yields the sample transfer with expiration `0`
(the field absent or zero in the envelope's `raw_data`). -/
def sampleSignerExpZero : Signer :=
  { sampleSigner with
    decodeTransaction := fun _ _ => decodeTransaction sampleChain (sampleTx.setExpiration 0) }

/-- C4 counterexample: a decoded transaction whose expiration is `0` — so
strictly less than the current time `1000` — is still accepted as valid by
verify, because the source guards the comparison behind JavaScript
truthiness of `decoded.expiration`; acceptance therefore does not require
`decoded.expiration >= now`. -/
theorem C4_counterexample :
    decodeTransaction sampleChain (sampleTx.setExpiration 0) =
      .ok { sampleDecoded with expiration := 0, rawTransaction := sampleTx.setExpiration 0 } ∧
    (0 : Nat) < 1000 ∧
    verify sampleSignerExpZero {} samplePayload sampleRequirements 1000 = .ok sampleValid :=
  ⟨by decide, by decide, by decide⟩

/-- C4 amended: among payloads passing all earlier verify checks, verify
rejects with the expired reason exactly when the decoded expiration is
nonzero (truthy) and strictly below `now`; a zero or absent expiration skips
the check entirely.  Decode itself never evaluates the expiration: changing
it changes only the `expiration` field (and the envelope echo) of a
successful decode and nothing of a failing one, so an envelope whose
expiration is in the past still decodes successfully and is only rejected by
verify. -/
theorem C4_expired_amended :
    (∀ (signer : Signer) (config : TronFacilitatorConfig) (payload : PaymentPayload)
        (requirements : PaymentRequirements) (now : Nat) (tp : ExactTronPayloadV2)
        (decoded : DecodedTronTransaction) (txAmount requiredAmount : Int) (r : VerifyResponse),
      payload.accepted.scheme = "exact" → requirements.scheme = "exact" →
      payload.accepted.network = requirements.network →
      payload.payload = .signedTx tp →
      signer.decodeTransaction tp.signedTransaction requirements.network = .ok decoded →
      decoded.contractType = "TriggerSmartContract" →
      decoded.functionSelector = "a9059cbb" →
      decoded.contractAddress = requirements.asset →
      decoded.parameters.«to» = some requirements.payTo →
      jsBigInt? (jsOrOpt decoded.parameters.amount "0") = some txAmount →
      jsBigInt? requirements.amount = some requiredAmount →
      ¬ txAmount < requiredAmount →
      decoded.ownerAddress = tp.«from» →
      signer.getAddresses.contains tp.«from» = false →
      verify signer config payload requirements now = .ok r →
      (r.invalidReason = some "invalid_tron_payload_expired" ↔
        (decoded.expiration ≠ 0 ∧ decoded.expiration < now))) ∧
    (∀ (tw : TronWebM) (tx : TronTx) (e : Nat),
      decodeTransaction tw (tx.setExpiration e) =
        (decodeTransaction tw tx).map
          (fun d => { d with expiration := e, rawTransaction := tx.setExpiration e })) := by
  constructor
  · intro signer config payload requirements now tp decoded txAmount requiredAmount r
      hs hrs hn hp hd hct hfs hca hto hta hra hge hsm hfac hv
    unfold verify at hv
    rw [hp] at hv
    simp only [hs, hrs, hn, hd, hct, hfs, hca, hto, hta, hra, hsm, hfac, ne_eq, not_true,
      or_self, eq_self_iff_true, not_false_iff, ite_true, ite_false, if_true, if_false] at hv
    rw [if_neg hge] at hv
    simp only [Bool.false_eq_true, if_false, ite_false] at hv
    by_cases hexp : decoded.expiration ≠ 0 ∧ decoded.expiration < now
    · rw [if_pos hexp] at hv
      cases hv
      simp [hexp]
    · rw [if_neg hexp] at hv
      repeat' split at hv
      all_goals (cases hv; exact (by simp [hexp]))
  · exact decodeTransaction_setExpiration

/-- Evaluation witness for C4's amended statement: the sample transfer with
expiration 999 verified at time 2000 is rejected as expired (the iff
instantiates), and decode of the expiration-0 envelope is the expiration
update of the original decode. -/
theorem C4_expired_amended_witness :
    ((some "invalid_tron_payload_expired" = some "invalid_tron_payload_expired") ↔
      ((999 : Nat) ≠ 0 ∧ (999 : Nat) < 2000)) ∧
    decodeTransaction sampleChain (sampleTx.setExpiration 0) =
      (decodeTransaction sampleChain sampleTx).map
        (fun d => { d with expiration := 0, rawTransaction := sampleTx.setExpiration 0 }) :=
  ⟨C4_expired_amended.1 sampleSigner {} samplePayload sampleRequirements 2000
      sampleTronPayload sampleDecoded 15 15
      { isValid := false, invalidReason := some "invalid_tron_payload_expired",
        invalidMessage := some "Transaction expired at 999", payer := "T41aabb" }
      rfl rfl rfl rfl (by decide) rfl rfl rfl rfl (by decide) (by decide) (by decide) rfl
      (by decide) (by decide),
   C4_expired_amended.2 sampleChain sampleTx 0⟩

/-- C6: an error of the energy/fee-estimate oracle never blocks
verification.  First conjunct: for every payload and requirements, verify
returns the too-expensive reason only when an actually obtained estimate,
converted to SUN at 420 SUN per energy unit, exceeds the configured
`maxEnergyFeeSun` ceiling.  Second conjunct: when every earlier check passes
and the estimation oracle throws, verify still accepts the payload as
valid. -/
theorem C6_energy_estimate_best_effort :
    (∀ (signer : Signer) (config : TronFacilitatorConfig) (payload : PaymentPayload)
        (requirements : PaymentRequirements) (now : Nat) (r : VerifyResponse),
      verify signer config payload requirements now = .ok r →
      r.invalidReason = some "invalid_tron_payload_energy_too_expensive" →
      ∃ tp decoded estimatedEnergy,
        payload.payload = RawPayload.signedTx tp ∧
        signer.decodeTransaction tp.signedTransaction requirements.network = .ok decoded ∧
        signer.estimateEnergy requirements.asset decoded.ownerAddress
          (jsOrOpt decoded.parameters.«to» requirements.payTo) requirements.amount
          requirements.network = .ok estimatedEnergy ∧
        estimatedEnergy * 420 > config.maxEnergyFeeSun) ∧
    (∀ (signer : Signer) (config : TronFacilitatorConfig) (payload : PaymentPayload)
        (requirements : PaymentRequirements) (now : Nat) (tp : ExactTronPayloadV2)
        (decoded : DecodedTronTransaction) (txAmount requiredAmount : Int)
        (balance : String) (balanceBigInt : Int) (err : String),
      payload.accepted.scheme = "exact" → requirements.scheme = "exact" →
      payload.accepted.network = requirements.network →
      payload.payload = .signedTx tp →
      signer.decodeTransaction tp.signedTransaction requirements.network = .ok decoded →
      decoded.contractType = "TriggerSmartContract" →
      decoded.functionSelector = "a9059cbb" →
      decoded.contractAddress = requirements.asset →
      decoded.parameters.«to» = some requirements.payTo →
      jsBigInt? (jsOrOpt decoded.parameters.amount "0") = some txAmount →
      jsBigInt? requirements.amount = some requiredAmount →
      ¬ txAmount < requiredAmount →
      decoded.ownerAddress = tp.«from» →
      signer.getAddresses.contains decoded.ownerAddress = false →
      ¬ (decoded.expiration ≠ 0 ∧ decoded.expiration < now) →
      signer.getTokenBalance requirements.asset decoded.ownerAddress requirements.network =
        .ok balance →
      jsBigInt? balance = some balanceBigInt →
      ¬ balanceBigInt < requiredAmount →
      signer.estimateEnergy requirements.asset decoded.ownerAddress
        (jsOrOpt decoded.parameters.«to» requirements.payTo) requirements.amount
        requirements.network = .error err →
      verify signer config payload requirements now =
        .ok { isValid := true, invalidReason := none, payer := tp.«from» }) := by
  constructor
  · intro signer config payload requirements now r hv hr
    unfold verify at hv
    by_cases h1 : payload.accepted.scheme ≠ "exact" ∨ requirements.scheme ≠ "exact"
    · rw [if_pos h1] at hv; cases hv; simp at hr
    · rw [if_neg h1] at hv
      by_cases h2 : payload.accepted.network ≠ requirements.network
      · rw [if_pos h2] at hv; cases hv; simp at hr
      · rw [if_neg h2] at hv
        cases hp : payload.payload with
        | otherPayload => rw [hp] at hv; cases hv; simp at hr
        | signedTx tp =>
          rw [hp] at hv
          simp only [] at hv
          cases hd : signer.decodeTransaction tp.signedTransaction requirements.network with
          | error e => rw [hd] at hv; cases hv; simp at hr
          | ok decoded =>
            rw [hd] at hv
            simp only [] at hv
            by_cases h3 : decoded.contractType ≠ "TriggerSmartContract"
            · rw [if_pos h3] at hv; cases hv; simp at hr
            · rw [if_neg h3] at hv
              by_cases h4 : decoded.functionSelector ≠ "a9059cbb"
              · rw [if_pos h4] at hv; cases hv; simp at hr
              · rw [if_neg h4] at hv
                by_cases h5 : decoded.contractAddress ≠ requirements.asset
                · rw [if_pos h5] at hv; cases hv; simp at hr
                · rw [if_neg h5] at hv
                  by_cases h6 : decoded.parameters.«to» ≠ some requirements.payTo
                  · rw [if_pos h6] at hv; cases hv; simp at hr
                  · rw [if_neg h6] at hv
                    cases ha : jsBigInt? (jsOrOpt decoded.parameters.amount "0") with
                    | none => rw [ha] at hv; exact Except.noConfusion hv
                    | some txAmount =>
                      rw [ha] at hv
                      simp only [] at hv
                      cases hb : jsBigInt? requirements.amount with
                      | none => rw [hb] at hv; exact Except.noConfusion hv
                      | some requiredAmount =>
                        rw [hb] at hv
                        simp only [] at hv
                        by_cases h7 : txAmount < requiredAmount
                        · rw [if_pos h7] at hv; cases hv; simp at hr
                        · rw [if_neg h7] at hv
                          by_cases h8 : decoded.ownerAddress ≠ tp.«from»
                          · rw [if_pos h8] at hv; cases hv; simp at hr
                          · rw [if_neg h8] at hv
                            by_cases h9 : signer.getAddresses.contains decoded.ownerAddress = true
                            · rw [if_pos h9] at hv; cases hv; simp at hr
                            · rw [if_neg h9] at hv
                              by_cases h10 : decoded.expiration ≠ 0 ∧ decoded.expiration < now
                              · rw [if_pos h10] at hv; cases hv; simp at hr
                              · rw [if_neg h10] at hv
                                cases hc : signer.getTokenBalance requirements.asset
                                    decoded.ownerAddress requirements.network with
                                | error e => rw [hc] at hv; cases hv; simp at hr
                                | ok balance =>
                                  rw [hc] at hv
                                  simp only [] at hv
                                  cases hbb : jsBigInt? balance with
                                  | none => rw [hbb] at hv; cases hv; simp at hr
                                  | some balanceBigInt =>
                                    rw [hbb] at hv
                                    simp only [] at hv
                                    by_cases h11 : balanceBigInt < requiredAmount
                                    · rw [if_pos h11] at hv; cases hv; simp at hr
                                    · rw [if_neg h11] at hv
                                      cases he : signer.estimateEnergy requirements.asset
                                          decoded.ownerAddress
                                          (jsOrOpt decoded.parameters.«to» requirements.payTo)
                                          requirements.amount requirements.network with
                                      | error err => rw [he] at hv; cases hv; simp at hr
                                      | ok estimatedEnergy =>
                                        rw [he] at hv
                                        simp only [] at hv
                                        by_cases h12 : estimatedEnergy * 420 > config.maxEnergyFeeSun
                                        · rw [if_pos h12] at hv
                                          cases hv
                                          exact ⟨tp, decoded, estimatedEnergy, rfl, hd, he, h12⟩
                                        · rw [if_neg h12] at hv; cases hv; simp at hr
  · intro signer config payload requirements now tp decoded txAmount requiredAmount
      balance balanceBigInt err hs hrs hn hp hd hct hfs hca hto hta hra hge hsm hfac hexp
      hbal hbi hbge hest
    unfold verify
    rw [if_neg (by simp [hs, hrs]), if_neg (by simp [hn]), hp]
    try simp only []
    rw [hd]
    try simp only []
    rw [if_neg (by simp [hct]), if_neg (by simp [hfs]), if_neg (by simp [hca]),
      if_neg (by simp [hto]), hta]
    try simp only []
    rw [hra]
    try simp only []
    rw [if_neg hge, if_neg (by simp [hsm]),
      if_neg (fun hc => by rw [hfac] at hc; exact Bool.noConfusion hc), if_neg hexp, hbal]
    try simp only []
    rw [hbi]
    try simp only []
    rw [if_neg hbge, hest]

/-- A signer whose estimate makes the fee exceed the default 100 TRX
ceiling. -/
def sampleSignerExpensive : Signer :=
  { sampleSigner with estimateEnergy := fun _ _ _ _ _ => .ok 1000000 }

/-- A signer whose energy-estimate oracle throws. -/
def sampleSignerEstFail : Signer :=
  { sampleSigner with estimateEnergy := fun _ _ _ _ _ => .error "energy oracle unavailable" }

/-- Evaluation witness for C6: a 1,000,000-energy estimate (420,000,000 SUN)
is rejected as too expensive with an actually obtained estimate above the
ceiling, while a failing estimate oracle leaves the payload accepted. -/
theorem C6_energy_estimate_best_effort_witness :
    (∃ tp decoded estimatedEnergy,
      samplePayload.payload = RawPayload.signedTx tp ∧
      sampleSignerExpensive.decodeTransaction tp.signedTransaction sampleRequirements.network =
        .ok decoded ∧
      sampleSignerExpensive.estimateEnergy sampleRequirements.asset decoded.ownerAddress
        (jsOrOpt decoded.parameters.«to» sampleRequirements.payTo) sampleRequirements.amount
        sampleRequirements.network = .ok estimatedEnergy ∧
      estimatedEnergy * 420 > TronFacilitatorConfig.maxEnergyFeeSun {}) ∧
    verify sampleSignerEstFail {} samplePayload sampleRequirements 50 =
      .ok { isValid := true, invalidReason := none, payer := "T41aabb" } :=
  ⟨C6_energy_estimate_best_effort.1 sampleSignerExpensive {} samplePayload sampleRequirements 50
      { isValid := false, invalidReason := some "invalid_tron_payload_energy_too_expensive",
        invalidMessage := some "Estimated energy cost 420000000 SUN exceeds max 100000000 SUN",
        payer := "T41aabb" }
      (by decide) rfl,
   C6_energy_estimate_best_effort.2 sampleSignerEstFail {} samplePayload sampleRequirements 50
      sampleTronPayload sampleDecoded 15 15 "5000000" 5000000 "energy oracle unavailable"
      rfl rfl rfl rfl (by decide) rfl rfl rfl rfl (by decide) (by decide) (by decide) rfl
      (by decide) (by decide) rfl (by decide) (by decide) rfl⟩

/-- Every rejecting verification response carries a reason code. -/
theorem verify_invalid_reason_isSome {signer : Signer} {config : TronFacilitatorConfig}
    {payload : PaymentPayload} {requirements : PaymentRequirements} {now : Nat}
    {v : VerifyResponse}
    (hv : verify signer config payload requirements now = .ok v) (hinv : v.isValid = false) :
    ∃ reason, v.invalidReason = some reason := by
  unfold verify at hv
  by_cases h1 : payload.accepted.scheme ≠ "exact" ∨ requirements.scheme ≠ "exact"
  · rw [if_pos h1] at hv; cases hv; exact ⟨_, rfl⟩
  · rw [if_neg h1] at hv
    by_cases h2 : payload.accepted.network ≠ requirements.network
    · rw [if_pos h2] at hv; cases hv; exact ⟨_, rfl⟩
    · rw [if_neg h2] at hv
      cases hp : payload.payload with
      | otherPayload => rw [hp] at hv; cases hv; exact ⟨_, rfl⟩
      | signedTx tp =>
        rw [hp] at hv
        simp only [] at hv
        cases hd : signer.decodeTransaction tp.signedTransaction requirements.network with
        | error e => rw [hd] at hv; cases hv; exact ⟨_, rfl⟩
        | ok decoded =>
          rw [hd] at hv
          simp only [] at hv
          by_cases h3 : decoded.contractType ≠ "TriggerSmartContract"
          · rw [if_pos h3] at hv; cases hv; exact ⟨_, rfl⟩
          · rw [if_neg h3] at hv
            by_cases h4 : decoded.functionSelector ≠ "a9059cbb"
            · rw [if_pos h4] at hv; cases hv; exact ⟨_, rfl⟩
            · rw [if_neg h4] at hv
              by_cases h5 : decoded.contractAddress ≠ requirements.asset
              · rw [if_pos h5] at hv; cases hv; exact ⟨_, rfl⟩
              · rw [if_neg h5] at hv
                by_cases h6 : decoded.parameters.«to» ≠ some requirements.payTo
                · rw [if_pos h6] at hv; cases hv; exact ⟨_, rfl⟩
                · rw [if_neg h6] at hv
                  cases ha : jsBigInt? (jsOrOpt decoded.parameters.amount "0") with
                  | none => rw [ha] at hv; exact Except.noConfusion hv
                  | some txAmount =>
                    rw [ha] at hv
                    simp only [] at hv
                    cases hb : jsBigInt? requirements.amount with
                    | none => rw [hb] at hv; exact Except.noConfusion hv
                    | some requiredAmount =>
                      rw [hb] at hv
                      simp only [] at hv
                      by_cases h7 : txAmount < requiredAmount
                      · rw [if_pos h7] at hv; cases hv; exact ⟨_, rfl⟩
                      · rw [if_neg h7] at hv
                        by_cases h8 : decoded.ownerAddress ≠ tp.«from»
                        · rw [if_pos h8] at hv; cases hv; exact ⟨_, rfl⟩
                        · rw [if_neg h8] at hv
                          by_cases h9 : signer.getAddresses.contains decoded.ownerAddress = true
                          · rw [if_pos h9] at hv; cases hv; exact ⟨_, rfl⟩
                          · rw [if_neg h9] at hv
                            by_cases h10 : decoded.expiration ≠ 0 ∧ decoded.expiration < now
                            · rw [if_pos h10] at hv; cases hv; exact ⟨_, rfl⟩
                            · rw [if_neg h10] at hv
                              cases hc : signer.getTokenBalance requirements.asset
                                  decoded.ownerAddress requirements.network with
                              | error e => rw [hc] at hv; cases hv; exact ⟨_, rfl⟩
                              | ok balance =>
                                rw [hc] at hv
                                simp only [] at hv
                                cases hbb : jsBigInt? balance with
                                | none => rw [hbb] at hv; cases hv; exact ⟨_, rfl⟩
                                | some balanceBigInt =>
                                  rw [hbb] at hv
                                  simp only [] at hv
                                  by_cases h11 : balanceBigInt < requiredAmount
                                  · rw [if_pos h11] at hv; cases hv; exact ⟨_, rfl⟩
                                  · rw [if_neg h11] at hv
                                    cases he : signer.estimateEnergy requirements.asset
                                        decoded.ownerAddress
                                        (jsOrOpt decoded.parameters.«to» requirements.payTo)
                                        requirements.amount requirements.network with
                                    | error err => rw [he] at hv; cases hv; exact absurd hinv (by simp)
                                    | ok estimatedEnergy =>
                                      rw [he] at hv
                                      simp only [] at hv
                                      by_cases h12 : estimatedEnergy * 420 > config.maxEnergyFeeSun
                                      · rw [if_pos h12] at hv
                                        cases hv
                                        exact ⟨_, rfl⟩
                                      · rw [if_neg h12] at hv; cases hv; exact absurd hinv (by simp)

/-- C7: settle first re-runs the full verification; whenever verify rejects,
settle returns `success = false` with an empty transaction id and an
`errorReason` equal to the verify rejection's reason, propagated unchanged —
and its result does not depend on the broadcast or confirmation capabilities
of the signer, so no broadcast is performed. -/
theorem C7_settle_propagates_rejection
    (signer : Signer) (config : TronFacilitatorConfig) (payload : PaymentPayload)
    (requirements : PaymentRequirements) (now : Nat) (v : VerifyResponse)
    (hv : verify signer config payload requirements now = .ok v)
    (hinv : v.isValid = false) :
    ∃ reason, v.invalidReason = some reason ∧
      settle signer config payload requirements now =
        .ok { success := false, transaction := "", network := payload.accepted.network,
              errorReason := some reason, errorMessage := v.invalidMessage,
              payer := jsOrStr v.payer "" } ∧
      ∀ bc ct,
        settle { signer with broadcastTransaction := bc, confirmTransaction := ct }
            config payload requirements now =
          settle signer config payload requirements now := by
  obtain ⟨reason, hreason⟩ := verify_invalid_reason_isSome hv hinv
  refine ⟨reason, hreason, ?_, ?_⟩
  · unfold settle
    rw [hv]
    simp only []
    rw [if_pos hinv, hreason]
    rfl
  · intro bc ct
    have hv' : verify { signer with broadcastTransaction := bc, confirmTransaction := ct }
        config payload requirements now = .ok v := hv
    unfold settle
    rw [hv, hv']
    simp only []
    rw [if_pos hinv, if_pos hinv]

/-- The facilitator-is-sender rejection produced by `sampleSignerFac`. -/
def sampleFacRejected : VerifyResponse :=
  { isValid := false, invalidReason := some "invalid_tron_payload_facilitator_is_sender",
    invalidMessage := some "Facilitator address cannot be the payment sender",
    payer := "T41aabb" }

/-- Evaluation witness for C7: settling the facilitator-is-sender payload
propagates the rejection with an empty transaction id, independently of the
broadcast and confirmation oracles. -/
theorem C7_settle_propagates_rejection_witness :
    ∃ reason, sampleFacRejected.invalidReason = some reason ∧
      settle sampleSignerFac {} samplePayload sampleRequirements 50 =
        .ok { success := false, transaction := "", network := "tron:27Lqcw",
              errorReason := some reason, errorMessage := sampleFacRejected.invalidMessage,
              payer := jsOrStr sampleFacRejected.payer "" } ∧
      ∀ bc ct,
        settle { sampleSignerFac with broadcastTransaction := bc, confirmTransaction := ct }
            {} samplePayload sampleRequirements 50 =
          settle sampleSignerFac {} samplePayload sampleRequirements 50 :=
  C7_settle_propagates_rejection sampleSignerFac {} samplePayload sampleRequirements 50
    sampleFacRejected (by decide) rfl

/-! ## Settlement failure classification (C8) -/

/-- A chain whose transaction-info oracle never finds the transaction. -/
def sampleChainPending : TronWebM :=
  { sampleChain with getTransactionInfo := fun _ _ => .ok {} }

/-- A chain whose broadcast endpoint answers with a non-success result
carrying the hex-encoded message `bandwidth` (no success flag or code). -/
def sampleChainBroadcastFail : TronWebM :=
  { sampleChain with
    sendRawTransaction := fun _ => .ok { result := false, message := some "62616e647769647468" } }

/-- A signer whose confirmation polling times out. -/
def sampleSignerTimeout : Signer :=
  { sampleSigner with
    confirmTransaction := fun txID _ => confirmTransaction sampleChainPending txID }

/-- A signer whose broadcast fails with a decoded client message. -/
def sampleSignerBroadcastFail : Signer :=
  { sampleSigner with
    broadcastTransaction := fun _ _ => broadcastTransaction sampleChainBroadcastFail sampleTx }

/-- C8 counterexample: a confirmation timeout and a broadcast failure — two
different settlement failures after successful verification — are reported
with the same `errorReason` (`transaction_broadcast_failed`), so the
returned `SettlementResult` does not classify the failure kinds by distinct
error reasons; only the free-text `errorMessage` differs. -/
theorem C8_counterexample :
    settle sampleSignerTimeout {} samplePayload sampleRequirements 50 =
      .ok { success := false, transaction := "", network := "tron:27Lqcw",
            errorReason := some "transaction_broadcast_failed",
            errorMessage := some "Transaction confirmation timeout after 90s",
            payer := "T41aabb" } ∧
    settle sampleSignerBroadcastFail {} samplePayload sampleRequirements 50 =
      .ok { success := false, transaction := "", network := "tron:27Lqcw",
            errorReason := some "transaction_broadcast_failed",
            errorMessage := some "Broadcast failed: bandwidth",
            payer := "T41aabb" } :=
  ⟨by decide, by decide⟩

/-- C8 amended: every settlement failure after a successful verification —
re-decode failure, broadcast failure, or confirmation failure (execution
failure, missing receipt, timeout) — is reported with the single error
reason `transaction_broadcast_failed`, the distinction living only in the
`errorMessage` text, which for a broadcast failure carries the client's
byte-encoded error message decoded to readable text. -/
theorem C8_settle_failure_classification :
    (∀ (signer : Signer) (config : TronFacilitatorConfig) (payload : PaymentPayload)
        (requirements : PaymentRequirements) (now : Nat) (v : VerifyResponse) (e : String),
      verify signer config payload requirements now = .ok v → v.isValid = true →
      signer.decodeTransaction (castTronPayload payload.payload).signedTransaction
        requirements.network = .error e →
      settle signer config payload requirements now =
        .ok { success := false, errorReason := some "transaction_broadcast_failed",
              errorMessage := some e, transaction := "", network := payload.accepted.network,
              payer := jsOrStr v.payer "" }) ∧
    (∀ (signer : Signer) (config : TronFacilitatorConfig) (payload : PaymentPayload)
        (requirements : PaymentRequirements) (now : Nat) (v : VerifyResponse)
        (d : DecodedTronTransaction) (e : String),
      verify signer config payload requirements now = .ok v → v.isValid = true →
      signer.decodeTransaction (castTronPayload payload.payload).signedTransaction
        requirements.network = .ok d →
      signer.broadcastTransaction (castTronPayload payload.payload).signedTransaction
        requirements.network = .error e →
      settle signer config payload requirements now =
        .ok { success := false, errorReason := some "transaction_broadcast_failed",
              errorMessage := some e, transaction := "", network := payload.accepted.network,
              payer := jsOrStr v.payer "" }) ∧
    (∀ (signer : Signer) (config : TronFacilitatorConfig) (payload : PaymentPayload)
        (requirements : PaymentRequirements) (now : Nat) (v : VerifyResponse)
        (d : DecodedTronTransaction) (txID e : String),
      verify signer config payload requirements now = .ok v → v.isValid = true →
      signer.decodeTransaction (castTronPayload payload.payload).signedTransaction
        requirements.network = .ok d →
      signer.broadcastTransaction (castTronPayload payload.payload).signedTransaction
        requirements.network = .ok txID →
      signer.confirmTransaction txID requirements.network = .error e →
      settle signer config payload requirements now =
        .ok { success := false, errorReason := some "transaction_broadcast_failed",
              errorMessage := some e, transaction := "", network := payload.accepted.network,
              payer := jsOrStr v.payer "" }) ∧
    (∀ (tw : TronWebM) (tx : TronTx) (res : BroadcastResult),
      tw.sendRawTransaction tx = .ok res →
      ¬ res.result = true → ¬ res.code = some "SUCCESS" → optTruthy res.message = true →
      broadcastTransaction tw tx =
        .error ("Broadcast failed: " ++ hexToUtf8 (res.message.getD ""))) := by
  refine ⟨?_, ?_, ?_, ?_⟩
  · intro signer config payload requirements now v e hv hval hde
    unfold settle
    rw [hv]
    simp only []
    rw [if_neg (by simp [hval]), hde]
  · intro signer config payload requirements now v d e hv hval hde hbc
    unfold settle
    rw [hv]
    simp only []
    rw [if_neg (by simp [hval]), hde]
    simp only []
    rw [hbc]
  · intro signer config payload requirements now v d txID e hv hval hde hbc hcf
    unfold settle
    rw [hv]
    simp only []
    rw [if_neg (by simp [hval]), hde]
    simp only []
    rw [hbc]
    simp only []
    rw [hcf]
  · intro tw tx res hsend hr1 hr2 hmsg
    unfold broadcastTransaction
    rw [hsend]
    simp only []
    rw [if_neg (by simp [hr1, hr2]), if_pos hmsg]

/-- Evaluation witness for C8's amended statement: a failing confirmation
and a failing broadcast both settle to the single broadcast-failed reason
with the throw's message, and the broadcast failure text is the hex-decoded
client message. -/
theorem C8_settle_failure_classification_witness :
    settle sampleSignerTimeout {} samplePayload sampleRequirements 50 =
      .ok { success := false, errorReason := some "transaction_broadcast_failed",
            errorMessage := some "Transaction confirmation timeout after 90s",
            transaction := "", network := "tron:27Lqcw", payer := jsOrStr "T41aabb" "" } ∧
    settle sampleSignerBroadcastFail {} samplePayload sampleRequirements 50 =
      .ok { success := false, errorReason := some "transaction_broadcast_failed",
            errorMessage := some "Broadcast failed: bandwidth",
            transaction := "", network := "tron:27Lqcw", payer := jsOrStr "T41aabb" "" } ∧
    broadcastTransaction sampleChainBroadcastFail sampleTx =
      .error ("Broadcast failed: " ++ hexToUtf8 "62616e647769647468") :=
  ⟨C8_settle_failure_classification.2.2.1 sampleSignerTimeout {} samplePayload
      sampleRequirements 50 sampleValid sampleDecoded "txid123"
      "Transaction confirmation timeout after 90s"
      (by decide) rfl (by decide) (by decide) (by decide),
   C8_settle_failure_classification.2.1 sampleSignerBroadcastFail {} samplePayload
      sampleRequirements 50 sampleValid sampleDecoded "Broadcast failed: bandwidth"
      (by decide) rfl (by decide) (by decide),
   C8_settle_failure_classification.2.2.2 sampleChainBroadcastFail sampleTx
      { result := false, message := some "62616e647769647468" }
      rfl (by decide) (by decide) (by decide)⟩

/-! ## Confirmation polling (C9) -/

/-- The confirmation loop's outcome is fixed by the first terminating body:
once some attempt returns a result, later attempts are never consulted. -/
theorem confirmFrom_of_body (tw : TronWebM) (txID : String) :
    ∀ (k a fuel : Nat) (r : Except String Unit), k < fuel →
      (∀ j, j < k → confirmBody tw txID (a + j) = none) →
      confirmBody tw txID (a + k) = some r →
      confirmFrom tw txID a fuel = r := by
  intro k
  induction k with
  | zero =>
    intro a fuel r hk _ hbody
    match fuel, hk with
    | fuel + 1, _ =>
      rw [Nat.add_zero] at hbody
      simp only [confirmFrom]
      rw [hbody]
  | succ k ih =>
    intro a fuel r hk hnone hbody
    match fuel, hk with
    | fuel + 1, hk =>
      simp only [confirmFrom]
      have h0 := hnone 0 (Nat.succ_pos k)
      rw [Nat.add_zero] at h0
      rw [h0]
      exact ih (a + 1) fuel r (by omega)
        (fun j hj => by
          have := hnone (j + 1) (by omega)
          rwa [show a + (j + 1) = a + 1 + j by omega] at this)
        (by rwa [show a + 1 + k = a + (k + 1) by omega])

/-- Exhausting the attempt budget with every body pending throws the timeout
error. -/
theorem confirmFrom_timeout (tw : TronWebM) (txID : String) :
    ∀ (fuel a : Nat), (∀ j, j < fuel → confirmBody tw txID (a + j) = none) →
      confirmFrom tw txID a fuel = .error timeoutMsg := by
  intro fuel
  induction fuel with
  | zero => intro a _; rfl
  | succ fuel ih =>
    intro a hnone
    simp only [confirmFrom]
    have h0 := hnone 0 (Nat.succ_pos fuel)
    rw [Nat.add_zero] at h0
    rw [h0]
    exact ih (a + 1)
      (fun j hj => by
        have := hnone (j + 1) (by omega)
        rwa [show a + (j + 1) = a + 1 + j by omega] at this)

/-- The confirmation loop consults the status oracle only at the attempt
indices it can reach. -/
theorem confirmFrom_congr (tw1 tw2 : TronWebM) (txID : String) :
    ∀ (fuel a : Nat),
      (∀ j, j < fuel → tw1.getTransactionInfo (a + j) txID = tw2.getTransactionInfo (a + j) txID) →
      confirmFrom tw1 txID a fuel = confirmFrom tw2 txID a fuel := by
  intro fuel
  induction fuel with
  | zero => intro a _; rfl
  | succ fuel ih =>
    intro a hag
    simp only [confirmFrom]
    have hb : confirmBody tw1 txID a = confirmBody tw2 txID a := by
      unfold confirmBody
      have h0 := hag 0 (Nat.succ_pos fuel)
      rw [Nat.add_zero] at h0
      rw [h0]
    rw [hb]
    cases hcb : confirmBody tw2 txID a
    · exact ih (a + 1)
        (fun j hj => by
          have := hag (j + 1) (by omega)
          rwa [show a + (j + 1) = a + 1 + j by omega] at this)
    · rfl

/-- The execution-failed message always contains the substring the catch
block sniffs for. -/
theorem execFailedMsg_sniff (s : String) (rm : Option String) :
    jsIncludes (execFailedMsg s rm) "execution failed" = true := by
  unfold jsIncludes
  apply decide_eq_true
  refine ⟨("Transaction on-chain but ").data,
    ((": ").data ++ (s ++ (if optTruthy rm then " — " ++ rm.getD "" else "")).data), ?_⟩
  have hconst : ("Transaction on-chain but ").data ++ ("execution failed").data ++ (": ").data =
      ("Transaction on-chain but execution failed: ").data := by decide
  simp only [execFailedMsg, String.data_append, ← List.append_assoc, hconst]

/-- C9: confirmation polling makes at most `maxAttempts = 30` status
attempts at the fixed `pollInterval = 3000` milliseconds (the outcome
depends only on the oracle's answers at attempt indices below 30); a defined
terminal non-success execution status observed on any attempt is immediately
fatal with the execution-failed error and later attempts are never
consulted; a transaction found on-chain with still no execution receipt at an
attempt index beyond the early threshold `5` fails with the distinct
missing-receipt error instead of polling continuing; and exhausting all
attempts with every poll still pending yields the confirmation-timeout
error. -/
theorem C9_confirmation_polling :
    maxAttempts = 30 ∧ pollInterval = 3000 ∧
    (∀ (tw1 tw2 : TronWebM) (txID : String),
      (∀ a, a < maxAttempts → tw1.getTransactionInfo a txID = tw2.getTransactionInfo a txID) →
      confirmTransaction tw1 txID = confirmTransaction tw2 txID) ∧
    (∀ (tw : TronWebM) (txID : String) (a : Nat) (i s : String) (rm : Option String),
      a < maxAttempts →
      (∀ j, j < a → confirmBody tw txID j = none) →
      tw.getTransactionInfo a txID = .ok ⟨some i, some s, rm⟩ →
      i ≠ "" → s ≠ "SUCCESS" → s ≠ "" →
      confirmTransaction tw txID = .error (execFailedMsg s rm)) ∧
    (∀ (tw : TronWebM) (txID : String) (a : Nat) (i : String) (rr rm : Option String),
      a < maxAttempts → 5 < a →
      (∀ j, j < a → confirmBody tw txID j = none) →
      tw.getTransactionInfo a txID = .ok ⟨some i, rr, rm⟩ →
      i ≠ "" → optTruthy rr = false →
      confirmTransaction tw txID = .error missingReceiptMsg) ∧
    (∀ (tw : TronWebM) (txID : String),
      (∀ a, a < maxAttempts → confirmBody tw txID a = none) →
      confirmTransaction tw txID = .error timeoutMsg) := by
  refine ⟨rfl, rfl, ?_, ?_, ?_, ?_⟩
  · intro tw1 tw2 txID hag
    exact confirmFrom_congr tw1 tw2 txID maxAttempts 0
      (fun j hj => by simpa using hag j hj)
  · intro tw txID a i s rm ha hnone hinfo hi hsucc hne
    have hbody : confirmBody tw txID a = some (.error (execFailedMsg s rm)) := by
      unfold confirmBody
      rw [hinfo]
      simp only []
      rw [if_pos (by simp [optTruthy, hi]), if_neg (by simp [hsucc]),
        if_pos (by simp [optTruthy, hne])]
      unfold catchClassify
      rw [if_pos (by rw [execFailedMsg_sniff]; simp)]
      rfl
    exact confirmFrom_of_body tw txID a 0 maxAttempts _ ha
      (fun j hj => by simpa using hnone j hj) (by simpa using hbody)
  · intro tw txID a i rr rm ha h5 hnone hinfo hi hrr
    have hbody : confirmBody tw txID a = some (.error missingReceiptMsg) := by
      unfold confirmBody
      rw [hinfo]
      simp only []
      rw [if_pos (by simp [optTruthy, hi]), if_neg ?hnr, if_neg (by simp [hrr]), if_pos h5]
      case hnr =>
        intro hc
        rw [hc] at hrr
        simp [optTruthy] at hrr
      unfold catchClassify
      rw [if_pos (by decide)]
    exact confirmFrom_of_body tw txID a 0 maxAttempts _ ha
      (fun j hj => by simpa using hnone j hj) (by simpa using hbody)
  · intro tw txID hnone
    exact confirmFrom_timeout tw txID maxAttempts 0 (fun j hj => by simpa using hnone j hj)

/-- A chain whose status oracle reports a reverted execution from the third
attempt on, pending before. -/
def sampleChainExecFail : TronWebM :=
  { sampleChain with
    getTransactionInfo := fun a _ =>
      if a < 2 then .ok {} else .ok ⟨some "t", some "REVERT", some "oops"⟩ }

/-- A chain whose status oracle always finds the transaction but never a
receipt. -/
def sampleChainFoundNoReceipt : TronWebM :=
  { sampleChain with getTransactionInfo := fun _ _ => .ok ⟨some "t", none, none⟩ }

/-- A chain agreeing with `sampleChainPending` on every attempt index below
30 and differing from index 30 on. -/
def sampleChainLate : TronWebM :=
  { sampleChain with
    getTransactionInfo := fun a _ =>
      if a < 30 then .ok {} else .ok ⟨some "t", some "SUCCESS", none⟩ }

/-- Evaluation witness for C9: oracle answers beyond attempt 30 are
irrelevant; a terminal non-success status at attempt 2 is fatal with the
execution-failed text; a found transaction with no receipt fails as
missing-receipt at attempt 6; and a never-found transaction times out. -/
theorem C9_confirmation_polling_witness :
    confirmTransaction sampleChainPending "t" = confirmTransaction sampleChainLate "t" ∧
    confirmTransaction sampleChainExecFail "t" =
      .error "Transaction on-chain but execution failed: REVERT — oops" ∧
    confirmTransaction sampleChainFoundNoReceipt "t" = .error missingReceiptMsg ∧
    confirmTransaction sampleChainPending "t" = .error timeoutMsg :=
  ⟨C9_confirmation_polling.2.2.1 sampleChainPending sampleChainLate "t" (by decide),
   C9_confirmation_polling.2.2.2.1 sampleChainExecFail "t" 2 "t" "REVERT" (some "oops")
     (by decide) (by decide) (by decide) (by decide) (by decide) (by decide),
   C9_confirmation_polling.2.2.2.2.1 sampleChainFoundNoReceipt "t" 6 "t" none none
     (by decide) (by decide) (by decide) (by decide) (by decide) (by decide),
   C9_confirmation_polling.2.2.2.2.2 sampleChainPending "t" (by decide)⟩

end X402Tron
